import Mathlib

/-!
TinyButton: the click / multi-click / long-press state machine

A shallow embedding of `TinyButton::tick(bool)` (src/src/TinyButton.cpp) and of the
accessors declared in src/src/TinyButton.h, followed by the properties proved about it.

Conventions of the embedding

* `millis()` is the argument `now` of `tick`; an `unsigned long` is a natural number
  below `ULONG_MOD = 2^32` and `now - _startTime` is computed modulo `2^32`.
* `byte _nClicks` is a natural number below `BYTE_MOD = 2^8`, `_nClicks++` wraps.
* A callback slot is a `Bool` (`true`: a function is attached, `false`: `NULL`).
  Calling a slot is recorded as a `Callback` value in the list `tick` returns, in the
  order of the calls. A callback is taken not to touch the object it is called from.
-/

/-- The macro `DEBOUNCEMS` of TinyButton.h (debounce window, ms). -/
def DEBOUNCEMS : Nat := 10

/-- The macro `CLICKMS` of TinyButton.h (gap that closes a click episode, ms). -/
def CLICKMS : Nat := 200

/-- The macro `PRESSMS` of TinyButton.h (hold time that starts a long press, ms). -/
def PRESSMS : Nat := 800

/-- Number of values of an `unsigned long` (32 bits on the Arduino targets). -/
def ULONG_MOD : Nat := 4294967296

/-- Number of values of a `byte`. -/
def BYTE_MOD : Nat := 256

/-- The enumeration `enum stateMachine_t : byte` of TinyButton.h. -/
inductive stateMachine_t where
  | OCS_INIT
  | OCS_DOWN
  | OCS_UP
  | OCS_COUNT
  | OCS_PRESS
  | OCS_PRESSEND
  | UNKNOWN
  deriving DecidableEq, Repr

/-- The callback slots of the class; a value in an event list means that the slot
was called. -/
inductive Callback where
  | click
  | multiClick
  | longPressStart
  | longPressStop
  | duringLongPress
  deriving DecidableEq, Repr

/-- The data members of `class TinyButton` that `tick(bool)` reads or writes.
`_pin` and `_buttonPressed` belong to the pin adapter `tick(void)` and are left out.
The slot `_multiClickFunc` is used by TinyButton.cpp (`attachMultiClick`, `tick`) but
its declaration is absent from TinyButton.h; it is taken to be a callback slot like the
four declared ones. -/
structure TinyButton where
  _nClicks : Nat
  _clickFunc : Bool
  _multiClickFunc : Bool
  _longPressStartFunc : Bool
  _longPressStopFunc : Bool
  _duringLongPressFunc : Bool
  _state : stateMachine_t
  _lastState : stateMachine_t
  _startTime : Nat
  deriving DecidableEq, Repr

open stateMachine_t

/-- The method `TinyButton::_newState`: save the current state in `_lastState`, then move. -/
def TinyButton._newState (b : TinyButton) (nextState : stateMachine_t) : TinyButton :=
  { b with _lastState := b._state, _state := nextState }

/-- The local `unsigned long waitTime = (now - _startTime)` of `tick`, modulo `2^32`. -/
def TinyButton.waitTime (b : TinyButton) (now : Nat) : Nat :=
  (now % ULONG_MOD + (ULONG_MOD - b._startTime % ULONG_MOD)) % ULONG_MOD

/-- The method `TinyButton::tick(bool isPressed)` with `millis()` passed as `now`: the new object
and the callback slots called, in call order. -/
def TinyButton.tick (b : TinyButton) (isPressed : Bool) (now : Nat) :
    TinyButton × List Callback :=
  let waitTime := b.waitTime now
  match b._state with
  | OCS_INIT =>
    if isPressed = true then
      ({ b._newState OCS_DOWN with _startTime := now, _nClicks := 0 }, [])
    else (b, [])
  | OCS_DOWN =>
    if isPressed = false ∧ waitTime < DEBOUNCEMS then
      (b._newState b._lastState, [])
    else if isPressed = false then
      ({ b._newState OCS_UP with _startTime := now }, [])
    else if isPressed = true ∧ waitTime > PRESSMS then
      (b._newState OCS_PRESS,
        if b._longPressStartFunc = true then [Callback.longPressStart] else [])
    else (b, [])
  | OCS_UP =>
    if isPressed = true ∧ waitTime < DEBOUNCEMS then
      (b._newState b._lastState, [])
    else if waitTime ≥ DEBOUNCEMS then
      let b1 := b._newState OCS_COUNT
      let b2 := { b1 with _nClicks := (b1._nClicks + 1) % BYTE_MOD }
      if b2._nClicks = 1 ∨ b2._multiClickFunc = false then
        (b2, if b2._clickFunc = true then [Callback.click] else [])
      else (b2, [Callback.multiClick])
    else (b, [])
  | OCS_COUNT =>
    if isPressed = true then
      ({ b._newState OCS_DOWN with _startTime := now }, [])
    else if waitTime > CLICKMS then
      (b._newState OCS_INIT, [])
    else (b, [])
  | OCS_PRESS =>
    if isPressed = false then
      ({ b._newState OCS_PRESSEND with _startTime := now }, [])
    else
      (b, if b._duringLongPressFunc = true then [Callback.duringLongPress] else [])
  | OCS_PRESSEND =>
    if isPressed = true ∧ waitTime < DEBOUNCEMS then
      (b._newState b._lastState, [])
    else if waitTime ≥ DEBOUNCEMS then
      (b._newState OCS_INIT,
        if b._longPressStopFunc = true then [Callback.longPressStop] else [])
    else (b, [])
  | UNKNOWN => (b._newState OCS_INIT, [])

/-- The method `TinyButton::getNumberClicks`. -/
def TinyButton.getNumberClicks (b : TinyButton) : Nat := b._nClicks

/-- The method `TinyButton::getPressDuration` with `millis()` passed as `now`. -/
def TinyButton.getPressDuration (b : TinyButton) (now : Nat) : Nat :=
  (now % ULONG_MOD + (ULONG_MOD - b._startTime % ULONG_MOD)) % ULONG_MOD

/-- The method `TinyButton::isIdle`. -/
def TinyButton.isIdle (b : TinyButton) : Bool := decide (b._state = OCS_INIT)

/-- The method `TinyButton::isLongPressed`. -/
def TinyButton.isLongPressed (b : TinyButton) : Bool := decide (b._state = OCS_PRESS)

/-- Successive calls of `tick`, one per `(level, now)` pair: the final object and all
callback calls in order. -/
def TinyButton.run (b : TinyButton) : List (Bool × Nat) → TinyButton × List Callback
  | [] => (b, [])
  | t :: rest =>
    ((TinyButton.run (b.tick t.1 t.2).1 rest).1,
      (b.tick t.1 t.2).2 ++ (TinyButton.run (b.tick t.1 t.2).1 rest).2)

/-- Successive calls of `tick`, keeping for every call the object after it and the
callback calls it made. -/
def TinyButton.trace (b : TinyButton) : List (Bool × Nat) → List (TinyButton × List Callback)
  | [] => []
  | t :: rest => b.tick t.1 t.2 :: TinyButton.trace (b.tick t.1 t.2).1 rest

/-- Pressed ticks at the given times. -/
def pressedAt (ts : List Nat) : List (Bool × Nat) := ts.map (fun t => (true, t))

/-- Released ticks at the given times. -/
def releasedAt (ts : List Nat) : List (Bool × Nat) := ts.map (fun t => (false, t))

/-- The object after the tick that counts a click (state `OCS_UP`, settled). -/
def TinyButton.counted (b : TinyButton) : TinyButton :=
  { b._newState OCS_COUNT with _nClicks := (b._nClicks + 1) % BYTE_MOD }

/-- The callback called by the tick that counts a click. -/
def TinyButton.clickDispatch (b : TinyButton) : List Callback :=
  if (b._nClicks + 1) % BYTE_MOD = 1 ∨ b._multiClickFunc = false then
    (if b._clickFunc = true then [Callback.click] else [])
  else [Callback.multiClick]

/-- The object after a debounced press and release that started in `OCS_INIT` or
`OCS_COUNT`: state `OCS_UP` entered at time `r`. -/
def TinyButton.released (b : TinyButton) (r : Nat) : TinyButton :=
  { b with
    _state := OCS_UP, _lastState := OCS_DOWN, _startTime := r,
    _nClicks := if b._state = OCS_INIT then 0 else b._nClicks }

/-- One press/release cycle of a tick sequence: a pressed tick at `p`, further pressed
ticks at `holds`, a released tick at `r`, further released ticks at `rel1`, `x`, `rel2`,
where `x` is a released tick that will be required to be settled. -/
structure ClickCycle where
  p : Nat
  holds : List Nat
  r : Nat
  rel1 : List Nat
  x : Nat
  rel2 : List Nat

/-- The timestamps of a cycle, in tick order. -/
def ClickCycle.times (c : ClickCycle) : List Nat :=
  c.p :: (c.holds ++ c.r :: (c.rel1 ++ c.x :: c.rel2))

/-- The ticks of a cycle. -/
def ClickCycle.ticks (c : ClickCycle) : List (Bool × Nat) :=
  (true, c.p) :: (pressedAt c.holds ++ (false, c.r) :: releasedAt (c.rel1 ++ c.x :: c.rel2))

/-- The press of the cycle is held at least `DEBOUNCEMS` and at most `PRESSMS`. -/
@[reducible] def ClickCycle.held (c : ClickCycle) : Prop :=
  DEBOUNCEMS ≤ c.r - c.p ∧ c.r - c.p ≤ PRESSMS

/-- The release of the cycle is settled: the released tick `x` comes at least
`DEBOUNCEMS` after the release. -/
@[reducible] def ClickCycle.settled (c : ClickCycle) : Prop :=
  DEBOUNCEMS ≤ c.x - c.r

/-- No released tick of the cycle sees more than `CLICKMS` since the release. -/
@[reducible] def ClickCycle.inGap (c : ClickCycle) : Prop :=
  ∀ t ∈ c.rel1 ++ c.x :: c.rel2, t - c.r ≤ CLICKMS

/-- The timestamps of consecutive cycles, in tick order. -/
def timesOf : List ClickCycle → List Nat
  | [] => []
  | c :: cs => c.times ++ timesOf cs

/-- The ticks of consecutive cycles. -/
def ticksOf : List ClickCycle → List (Bool × Nat)
  | [] => []
  | c :: cs => c.ticks ++ ticksOf cs

/-- A classifier with every callback attached, as constructed (`_state` and `_lastState`
are `OCS_INIT`), the two members without initialiser holding 0. -/
def freshButton : TinyButton :=
  { _nClicks := 0, _clickFunc := true, _multiClickFunc := true, _longPressStartFunc := true,
    _longPressStopFunc := true, _duringLongPressFunc := true, _state := OCS_INIT,
    _lastState := OCS_INIT, _startTime := 0 }

/-- The classifier `freshButton` after one completed single click (press at 0, release at
20, released ticks at 40 and 300): idle again, with the click count retained. -/
def idleAfterClick : TinyButton :=
  (freshButton.run [(true, 0), (false, 20), (false, 40), (false, 300)]).1

/-- A well-timed cycle: non-decreasing 32-bit timestamps, press held and release
settled. -/
@[reducible] def ClickCycle.ok (c : ClickCycle) : Prop :=
  List.Pairwise (fun s t => s ≤ t) c.times ∧ (∀ t ∈ c.times, t < ULONG_MOD) ∧
    c.held ∧ c.settled

/-- The `k`-th of a row of identical short clicks: press at `100 k`, release 20 ms later,
one released tick 20 ms after the release. -/
def stdCycle (k : Nat) : ClickCycle :=
  { p := 100 * k, holds := [], r := 100 * k + 20, rel1 := [], x := 100 * k + 40, rel2 := [] }

/-- The first `n` short clicks. -/
def stdCycles (n : Nat) : List ClickCycle := (List.range n).map stdCycle

/-- Two hundred and fifty-five short clicks in a row, then a press at 25500 and its
release at 25520. -/
def manyClicks : List (Bool × Nat) :=
  ticksOf (stdCycles 255) ++ [(true, 25500), (false, 25520)]

/-- The callback slot behind a recorded call: `true` when a function is attached. -/
def TinyButton.slotAttached (b : TinyButton) : Callback → Bool
  | Callback.click => b._clickFunc
  | Callback.multiClick => b._multiClickFunc
  | Callback.longPressStart => b._longPressStartFunc
  | Callback.longPressStop => b._longPressStopFunc
  | Callback.duringLongPress => b._duringLongPressFunc

/-- The object is inside a long press: in `OCS_PRESS` or `OCS_PRESSEND`. -/
def TinyButton.inLongPress (b : TinyButton) : Bool :=
  decide (b._state = OCS_PRESS ∨ b._state = OCS_PRESSEND)

/-- Bracketing of the long-press calls in a list of calls. The flag says whether a
long-press start is open (called, not yet followed by a stop). A start needs no open
start, a stop and a during need an open one; click calls are skipped. -/
def wellBracketed : Bool → List Callback → Bool
  | _, [] => true
  | isOpen, Callback.longPressStart :: rest => (!isOpen) && wellBracketed true rest
  | isOpen, Callback.longPressStop :: rest => isOpen && wellBracketed false rest
  | isOpen, Callback.duringLongPress :: rest => isOpen && wellBracketed true rest
  | isOpen, Callback.click :: rest => wellBracketed isOpen rest
  | isOpen, Callback.multiClick :: rest => wellBracketed isOpen rest

/-- What every object reached from a constructed one satisfies: no `UNKNOWN` state, and
the remembered state of `OCS_UP`, `OCS_PRESSEND` and `OCS_DOWN` is one of those that can
precede it. -/
def TinyButton.reachInv (b : TinyButton) : Prop :=
  b._state ≠ UNKNOWN ∧ b._lastState ≠ UNKNOWN ∧
  (b._state = OCS_UP → b._lastState = OCS_DOWN) ∧
  (b._state = OCS_PRESSEND → b._lastState = OCS_PRESS) ∧
  (b._state = OCS_DOWN →
    b._lastState = OCS_INIT ∨ b._lastState = OCS_COUNT ∨ b._lastState = OCS_UP)

/-! ## Single steps -/

theorem waitTime_of_le (b : TinyButton) (now : Nat) (h1 : b._startTime ≤ now)
    (h2 : now < ULONG_MOD) : b.waitTime now = now - b._startTime := by
  simp only [TinyButton.waitTime, ULONG_MOD] at *
  omega

theorem run_nil (b : TinyButton) : b.run [] = (b, []) := rfl

theorem run_cons (b : TinyButton) (t : Bool × Nat) (rest : List (Bool × Nat)) :
    b.run (t :: rest) =
      (((b.tick t.1 t.2).1.run rest).1, (b.tick t.1 t.2).2 ++ ((b.tick t.1 t.2).1.run rest).2) :=
  rfl

theorem run_append (b : TinyButton) (l1 l2 : List (Bool × Nat)) :
    b.run (l1 ++ l2) = (((b.run l1).1.run l2).1, (b.run l1).2 ++ ((b.run l1).1.run l2).2) := by
  induction l1 generalizing b with
  | nil => simp [run_nil]
  | cons t rest ih => simp [run_cons, ih, List.append_assoc]

theorem trace_append (b : TinyButton) (l1 l2 : List (Bool × Nat)) :
    b.trace (l1 ++ l2) = b.trace l1 ++ (b.run l1).1.trace l2 := by
  induction l1 generalizing b with
  | nil => simp [TinyButton.trace, run_nil]
  | cons t rest ih => simp [TinyButton.trace, run_cons, ih]

theorem tick_init_released (b : TinyButton) (now : Nat) (h : b._state = OCS_INIT) :
    b.tick false now = (b, []) := by
  simp [TinyButton.tick, h]

theorem tick_init_pressed (b : TinyButton) (now : Nat) (h : b._state = OCS_INIT) :
    b.tick true now = ({ b._newState OCS_DOWN with _startTime := now, _nClicks := 0 }, []) := by
  simp [TinyButton.tick, h]

theorem tick_count_pressed (b : TinyButton) (now : Nat) (h : b._state = OCS_COUNT) :
    b.tick true now = ({ b._newState OCS_DOWN with _startTime := now }, []) := by
  simp [TinyButton.tick, h]

theorem tick_count_released (b : TinyButton) (now : Nat) (h : b._state = OCS_COUNT) :
    b.tick false now = (if b.waitTime now > CLICKMS then b._newState OCS_INIT else b, []) := by
  simp only [TinyButton.tick, h]
  by_cases hw : b.waitTime now > CLICKMS <;> simp [hw]

theorem tick_down_pressed (b : TinyButton) (now : Nat) (h : b._state = OCS_DOWN)
    (hw : b.waitTime now ≤ PRESSMS) : b.tick true now = (b, []) := by
  simp [TinyButton.tick, h, Nat.not_lt.mpr hw]

theorem tick_down_long (b : TinyButton) (now : Nat) (h : b._state = OCS_DOWN)
    (hw : b.waitTime now > PRESSMS) :
    b.tick true now = (b._newState OCS_PRESS,
      if b._longPressStartFunc = true then [Callback.longPressStart] else []) := by
  simp [TinyButton.tick, h, hw]

theorem tick_down_released (b : TinyButton) (now : Nat) (h : b._state = OCS_DOWN)
    (hw : b.waitTime now ≥ DEBOUNCEMS) :
    b.tick false now = ({ b._newState OCS_UP with _startTime := now }, []) := by
  simp [TinyButton.tick, h, Nat.not_lt.mpr hw]

theorem tick_down_bounce (b : TinyButton) (now : Nat) (h : b._state = OCS_DOWN)
    (hw : b.waitTime now < DEBOUNCEMS) :
    b.tick false now = (b._newState b._lastState, []) := by
  simp [TinyButton.tick, h, hw]

theorem tick_up_released (b : TinyButton) (now : Nat) (h : b._state = OCS_UP) :
    b.tick false now =
      if b.waitTime now ≥ DEBOUNCEMS then (b.counted, b.clickDispatch) else (b, []) := by
  simp only [TinyButton.tick, h, TinyButton.counted, TinyButton.clickDispatch,
    TinyButton._newState]
  by_cases hw : b.waitTime now ≥ DEBOUNCEMS
  · by_cases hd : (b._nClicks + 1) % BYTE_MOD = 1 ∨ b._multiClickFunc = false
    · simp [hw, hd]
    · simp [hw, hd]
  · simp [hw]

theorem tick_press_pressed (b : TinyButton) (now : Nat) (h : b._state = OCS_PRESS) :
    b.tick true now =
      (b, if b._duringLongPressFunc = true then [Callback.duringLongPress] else []) := by
  simp [TinyButton.tick, h]

theorem tick_press_released (b : TinyButton) (now : Nat) (h : b._state = OCS_PRESS) :
    b.tick false now = ({ b._newState OCS_PRESSEND with _startTime := now }, []) := by
  simp [TinyButton.tick, h]

theorem tick_pressend_released (b : TinyButton) (now : Nat) (h : b._state = OCS_PRESSEND) :
    b.tick false now =
      if b.waitTime now ≥ DEBOUNCEMS then
        (b._newState OCS_INIT,
          if b._longPressStopFunc = true then [Callback.longPressStop] else [])
      else (b, []) := by
  simp only [TinyButton.tick, h]
  by_cases hw : b.waitTime now ≥ DEBOUNCEMS <;> simp [hw]

/-! ## Runs of ticks at one level -/

theorem releasedAt_cons (t : Nat) (ts : List Nat) :
    releasedAt (t :: ts) = (false, t) :: releasedAt ts := rfl

theorem pressedAt_cons (t : Nat) (ts : List Nat) :
    pressedAt (t :: ts) = (true, t) :: pressedAt ts := rfl

theorem releasedAt_append (l1 l2 : List Nat) :
    releasedAt (l1 ++ l2) = releasedAt l1 ++ releasedAt l2 := by
  simp [releasedAt]

theorem pressedAt_append (l1 l2 : List Nat) :
    pressedAt (l1 ++ l2) = pressedAt l1 ++ pressedAt l2 := by
  simp [pressedAt]

theorem run_released_init (b : TinyButton) (ts : List Nat) (h : b._state = OCS_INIT) :
    b.run (releasedAt ts) = (b, []) := by
  induction ts with
  | nil => rfl
  | cons t ts ih => simp [releasedAt_cons, run_cons, tick_init_released b t h, ih]

theorem run_released_count (b : TinyButton) (ts : List Nat) (h : b._state = OCS_COUNT) :
    b.run (releasedAt ts) = (b, []) ∨ b.run (releasedAt ts) = (b._newState OCS_INIT, []) := by
  induction ts with
  | nil => exact Or.inl rfl
  | cons t ts ih =>
    rw [releasedAt_cons, run_cons, tick_count_released b t h]
    by_cases hw : b.waitTime t > CLICKMS
    · right
      simp [hw, run_released_init (b._newState OCS_INIT) ts rfl]
    · rcases ih with ih | ih <;> simp [hw, ih]

theorem run_released_count_gap (b : TinyButton) (ts : List Nat) (h : b._state = OCS_COUNT)
    (hts : ∀ t ∈ ts, b.waitTime t ≤ CLICKMS) : b.run (releasedAt ts) = (b, []) := by
  induction ts with
  | nil => rfl
  | cons t ts ih =>
    have h1 : ¬ b.waitTime t > CLICKMS := Nat.not_lt.mpr (hts t (List.mem_cons_self t ts))
    rw [releasedAt_cons, run_cons, tick_count_released b t h]
    simp [h1, ih (fun u hu => hts u (List.mem_cons_of_mem t hu))]

theorem run_released_up (b : TinyButton) (ts : List Nat) (h : b._state = OCS_UP) :
    b.run (releasedAt ts) = (b, []) ∨ b.run (releasedAt ts) = (b.counted, b.clickDispatch) ∨
      b.run (releasedAt ts) = (b.counted._newState OCS_INIT, b.clickDispatch) := by
  induction ts with
  | nil => exact Or.inl rfl
  | cons t ts ih =>
    rw [releasedAt_cons, run_cons, tick_up_released b t h]
    by_cases hw : b.waitTime t ≥ DEBOUNCEMS
    · right
      rcases run_released_count b.counted ts rfl with hc | hc <;> simp [hw, hc]
    · rcases ih with ih | ih | ih <;> simp [hw, ih]

theorem run_released_up_gap (b : TinyButton) (ts : List Nat) (h : b._state = OCS_UP)
    (hts : ∀ t ∈ ts, b.waitTime t ≤ CLICKMS) :
    b.run (releasedAt ts) = (b, []) ∨ b.run (releasedAt ts) = (b.counted, b.clickDispatch) := by
  induction ts with
  | nil => exact Or.inl rfl
  | cons t ts ih =>
    have htl : ∀ u ∈ ts, b.waitTime u ≤ CLICKMS := fun u hu => hts u (List.mem_cons_of_mem t hu)
    rw [releasedAt_cons, run_cons, tick_up_released b t h]
    by_cases hw : b.waitTime t ≥ DEBOUNCEMS
    · right
      simp [hw, run_released_count_gap b.counted ts rfl htl]
    · rcases ih htl with ih | ih <;> simp [hw, ih]

theorem run_pressed_down (b : TinyButton) (ts : List Nat) (h : b._state = OCS_DOWN)
    (hts : ∀ t ∈ ts, b.waitTime t ≤ PRESSMS) : b.run (pressedAt ts) = (b, []) := by
  induction ts with
  | nil => rfl
  | cons t ts ih =>
    rw [pressedAt_cons, run_cons, tick_down_pressed b t h (hts t (List.mem_cons_self t ts))]
    simp [ih (fun u hu => hts u (List.mem_cons_of_mem t hu))]

/-- Released ticks met in `OCS_UP`, one of them settled: the click is counted once. -/
theorem run_released_settle (b : TinyButton) (rel1 rel2 : List Nat) (x : Nat)
    (h : b._state = OCS_UP) (hx : b.waitTime x ≥ DEBOUNCEMS) :
    b.run (releasedAt (rel1 ++ x :: rel2)) = (b.counted, b.clickDispatch) ∨
      b.run (releasedAt (rel1 ++ x :: rel2)) = (b.counted._newState OCS_INIT, b.clickDispatch) := by
  rw [releasedAt_append, run_append, releasedAt_cons, run_cons]
  rcases run_released_up b rel1 h with h1 | h1 | h1
  · rw [h1]
    simp only [tick_up_released b x h, hx, if_true]
    rcases run_released_count b.counted rel2 rfl with hc | hc <;> simp [hc]
  · rw [h1]
    simp only [tick_count_released b.counted x rfl]
    by_cases hw : b.counted.waitTime x > CLICKMS
    · simp [hw, run_released_init (b.counted._newState OCS_INIT) rel2 rfl]
    · rcases run_released_count b.counted rel2 rfl with hc | hc <;> simp [hw, hc]
  · rw [h1]
    simp [tick_init_released (b.counted._newState OCS_INIT) x rfl,
      run_released_init (b.counted._newState OCS_INIT) rel2 rfl]

/-- Released ticks met in `OCS_UP`, one of them settled, all inside the click gap. -/
theorem run_released_settle_gap (b : TinyButton) (rel1 rel2 : List Nat) (x : Nat)
    (h : b._state = OCS_UP) (hx : b.waitTime x ≥ DEBOUNCEMS)
    (hts : ∀ t ∈ rel1 ++ x :: rel2, b.waitTime t ≤ CLICKMS) :
    b.run (releasedAt (rel1 ++ x :: rel2)) = (b.counted, b.clickDispatch) := by
  have h1 : ∀ t ∈ rel1, b.waitTime t ≤ CLICKMS := fun t ht => hts t (by simp [ht])
  have h2 : ∀ t ∈ rel2, b.counted.waitTime t ≤ CLICKMS := fun t ht => hts t (by simp [ht])
  have h3 : ¬ b.counted.waitTime x > CLICKMS := Nat.not_lt.mpr (hts x (by simp))
  rw [releasedAt_append, run_append, releasedAt_cons, run_cons]
  rcases run_released_up_gap b rel1 h h1 with h0 | h0
  · rw [h0]
    simp [tick_up_released b x h, hx, run_released_count_gap b.counted rel2 rfl h2]
  · rw [h0]
    simp [tick_count_released b.counted x rfl, h3, run_released_count_gap b.counted rel2 rfl h2]

/-- Released ticks met in `OCS_UP`, one settled and a later one beyond the click gap. -/
theorem run_released_close (b : TinyButton) (rel1 rel2 rel3 : List Nat) (x y : Nat)
    (h : b._state = OCS_UP) (hx : b.waitTime x ≥ DEBOUNCEMS) (hy : b.waitTime y > CLICKMS) :
    b.run (releasedAt (rel1 ++ x :: (rel2 ++ y :: rel3))) =
      (b.counted._newState OCS_INIT, b.clickDispatch) := by
  have e : rel1 ++ x :: (rel2 ++ y :: rel3) = (rel1 ++ x :: rel2) ++ y :: rel3 := by simp
  have hy2 : b.counted.waitTime y > CLICKMS := hy
  rw [e, releasedAt_append, run_append, releasedAt_cons, run_cons]
  rcases run_released_settle b rel1 rel2 x h hx with h1 | h1
  · rw [h1]
    simp [tick_count_released b.counted y rfl, hy2,
      run_released_init (b.counted._newState OCS_INIT) rel3 rfl]
  · rw [h1]
    simp [tick_init_released (b.counted._newState OCS_INIT) y rfl,
      run_released_init (b.counted._newState OCS_INIT) rel3 rfl]

/-! ## Press, hold and release -/

/-- A press in `OCS_INIT` or `OCS_COUNT`, pressed ticks below the long-press threshold and a
debounced release lead to `OCS_UP` without any callback. -/
theorem run_press_release (b : TinyButton) (p r : Nat) (holds : List Nat)
    (rest : List (Bool × Nat))
    (hs : b._state = OCS_INIT ∨ b._state = OCS_COUNT)
    (hholds : ∀ t ∈ holds, p ≤ t ∧ t < ULONG_MOD ∧ t - p ≤ PRESSMS)
    (hpr : p ≤ r) (hr : r < ULONG_MOD) (hdeb : r - p ≥ DEBOUNCEMS) :
    b.run ((true, p) :: (pressedAt holds ++ (false, r) :: rest)) = (b.released r).run rest := by
  have key : ∀ d : TinyButton, d._state = OCS_DOWN → d._startTime = p →
      d.run (pressedAt holds ++ (false, r) :: rest)
        = ({ d._newState OCS_UP with _startTime := r } : TinyButton).run rest := by
    intro d hd hst
    have h1 : ∀ t ∈ holds, d.waitTime t ≤ PRESSMS := by
      intro t ht
      obtain ⟨a, c, e⟩ := hholds t ht
      rw [waitTime_of_le d t (by omega) c, hst]
      exact e
    have h2 : d.waitTime r ≥ DEBOUNCEMS := by
      rw [waitTime_of_le d r (by omega) hr, hst]
      exact hdeb
    rw [run_append, run_pressed_down d holds hd h1, run_cons]
    simp [tick_down_released d r hd h2]
  rcases hs with hs | hs
  · rw [run_cons]
    simp only [tick_init_pressed b p hs]
    rw [key _ rfl rfl]
    simp [TinyButton.released, TinyButton._newState, hs]
  · rw [run_cons]
    simp only [tick_count_pressed b p hs]
    rw [key _ rfl rfl]
    simp [TinyButton.released, TinyButton._newState, hs]

/-- What non-decreasing timestamps give for one press/release cycle. -/
theorem sorted_cycle (p r : Nat) (holds rel : List Nat)
    (h : List.Pairwise (fun s t => s ≤ t) (p :: (holds ++ r :: rel))) :
    (∀ t ∈ holds, p ≤ t) ∧ p ≤ r ∧ (∀ t ∈ holds, t ≤ r) ∧ ∀ t ∈ rel, r ≤ t := by
  have hp := (List.pairwise_cons.mp h).1
  have htail := List.pairwise_append.mp (List.pairwise_cons.mp h).2
  refine ⟨fun t ht => hp t (by simp [ht]), hp r (by simp), fun t ht => htail.2.2 t ht r (by simp),
    fun t ht => (List.pairwise_cons.mp htail.2.1).1 t ht⟩

/-- A full cycle met in `OCS_INIT` or `OCS_COUNT`: the click is counted once; the
object ends in `OCS_COUNT`, or in `OCS_INIT` when a released tick saw the gap expire. -/
theorem run_cycle (b : TinyButton) (c : ClickCycle)
    (hs : b._state = OCS_INIT ∨ b._state = OCS_COUNT)
    (hsorted : List.Pairwise (fun s t => s ≤ t) c.times)
    (hrange : ∀ t ∈ c.times, t < ULONG_MOD)
    (hheld : c.held) (hsettled : c.settled) :
    b.run c.ticks = ((b.released c.r).counted, (b.released c.r).clickDispatch) ∨
      b.run c.ticks =
        ((b.released c.r).counted._newState OCS_INIT, (b.released c.r).clickDispatch) := by
  obtain ⟨hp, hpr, hhr, hr2⟩ := sorted_cycle c.p c.r c.holds _ hsorted
  have hholds : ∀ t ∈ c.holds, c.p ≤ t ∧ t < ULONG_MOD ∧ t - c.p ≤ PRESSMS := fun t ht =>
    ⟨hp t ht, hrange t (by simp [ClickCycle.times, ht]), by
      have := hhr t ht
      have := hheld.2
      omega⟩
  have hwx : (b.released c.r).waitTime c.x ≥ DEBOUNCEMS := by
    rw [waitTime_of_le _ c.x (hr2 c.x (by simp)) (hrange c.x (by simp [ClickCycle.times]))]
    exact hsettled
  rw [ClickCycle.ticks, run_press_release b c.p c.r c.holds _ hs hholds hpr
    (hrange c.r (by simp [ClickCycle.times])) hheld.1]
  exact run_released_settle (b.released c.r) c.rel1 c.rel2 c.x rfl hwx

/-- A full cycle whose released ticks all stay inside the click gap ends in `OCS_COUNT`. -/
theorem run_cycle_gap (b : TinyButton) (c : ClickCycle)
    (hs : b._state = OCS_INIT ∨ b._state = OCS_COUNT)
    (hsorted : List.Pairwise (fun s t => s ≤ t) c.times)
    (hrange : ∀ t ∈ c.times, t < ULONG_MOD)
    (hheld : c.held) (hsettled : c.settled) (hgap : c.inGap) :
    b.run c.ticks = ((b.released c.r).counted, (b.released c.r).clickDispatch) := by
  obtain ⟨hp, hpr, hhr, hr2⟩ := sorted_cycle c.p c.r c.holds _ hsorted
  have hholds : ∀ t ∈ c.holds, c.p ≤ t ∧ t < ULONG_MOD ∧ t - c.p ≤ PRESSMS := fun t ht =>
    ⟨hp t ht, hrange t (by simp [ClickCycle.times, ht]), by
      have := hhr t ht
      have := hheld.2
      omega⟩
  have hwx : (b.released c.r).waitTime c.x ≥ DEBOUNCEMS := by
    rw [waitTime_of_le _ c.x (hr2 c.x (by simp)) (hrange c.x (by simp [ClickCycle.times]))]
    exact hsettled
  have hw : ∀ t ∈ c.rel1 ++ c.x :: c.rel2, (b.released c.r).waitTime t ≤ CLICKMS := by
    intro t ht
    rw [waitTime_of_le _ t (hr2 t ht) (hrange t (by
      simp only [ClickCycle.times, List.mem_cons, List.mem_append] at ht ⊢
      tauto))]
    exact hgap t ht
  rw [ClickCycle.ticks, run_press_release b c.p c.r c.holds _ hs hholds hpr
    (hrange c.r (by simp [ClickCycle.times])) hheld.1]
  exact run_released_settle_gap (b.released c.r) c.rel1 c.rel2 c.x rfl hwx hw

/-! ## The long-press phases, tick by tick -/

theorem trace_cons (b : TinyButton) (t : Bool × Nat) (rest : List (Bool × Nat)) :
    b.trace (t :: rest) = b.tick t.1 t.2 :: (b.tick t.1 t.2).1.trace rest := rfl

theorem trace_pressed_down (b : TinyButton) (ts : List Nat) (h : b._state = OCS_DOWN)
    (hts : ∀ t ∈ ts, b.waitTime t ≤ PRESSMS) :
    b.trace (pressedAt ts) = List.replicate ts.length (b, []) := by
  induction ts with
  | nil => rfl
  | cons t ts ih =>
    rw [pressedAt_cons, trace_cons, tick_down_pressed b t h (hts t (List.mem_cons_self t ts))]
    simp [ih (fun u hu => hts u (List.mem_cons_of_mem t hu)), List.replicate_succ]

theorem trace_pressed_press (b : TinyButton) (ts : List Nat) (h : b._state = OCS_PRESS) :
    b.trace (pressedAt ts) = List.replicate ts.length
      (b, if b._duringLongPressFunc = true then [Callback.duringLongPress] else []) := by
  induction ts with
  | nil => rfl
  | cons t ts ih =>
    rw [pressedAt_cons, trace_cons, tick_press_pressed b t h]
    simp [ih, List.replicate_succ]

theorem run_pressed_press (b : TinyButton) (ts : List Nat) (h : b._state = OCS_PRESS) :
    (b.run (pressedAt ts)).1 = b := by
  induction ts with
  | nil => rfl
  | cons t ts ih =>
    rw [pressedAt_cons, run_cons, tick_press_pressed b t h]
    simp [ih]

theorem trace_released_pressend (b : TinyButton) (ts : List Nat) (h : b._state = OCS_PRESSEND)
    (hts : ∀ t ∈ ts, b.waitTime t < DEBOUNCEMS) :
    b.trace (releasedAt ts) = List.replicate ts.length (b, []) := by
  induction ts with
  | nil => rfl
  | cons t ts ih =>
    have h1 : ¬ b.waitTime t ≥ DEBOUNCEMS := Nat.not_le.mpr (hts t (List.mem_cons_self t ts))
    rw [releasedAt_cons, trace_cons, tick_pressend_released b t h]
    simp [h1, ih (fun u hu => hts u (List.mem_cons_of_mem t hu)), List.replicate_succ]

theorem run_released_pressend (b : TinyButton) (ts : List Nat) (h : b._state = OCS_PRESSEND)
    (hts : ∀ t ∈ ts, b.waitTime t < DEBOUNCEMS) :
    b.run (releasedAt ts) = (b, []) := by
  induction ts with
  | nil => rfl
  | cons t ts ih =>
    have h1 : ¬ b.waitTime t ≥ DEBOUNCEMS := Nat.not_le.mpr (hts t (List.mem_cons_self t ts))
    rw [releasedAt_cons, run_cons, tick_pressend_released b t h]
    simp [h1, ih (fun u hu => hts u (List.mem_cons_of_mem t hu))]

/-! ## Several cycles in a row -/

theorem ticksOf_append (l1 l2 : List ClickCycle) :
    ticksOf (l1 ++ l2) = ticksOf l1 ++ ticksOf l2 := by
  induction l1 with
  | nil => rfl
  | cons c cs ih => simp [ticksOf, ih]

theorem timesOf_append (l1 l2 : List ClickCycle) :
    timesOf (l1 ++ l2) = timesOf l1 ++ timesOf l2 := by
  induction l1 with
  | nil => rfl
  | cons c cs ih => simp [timesOf, ih]

theorem ticksOf_single (c : ClickCycle) : ticksOf [c] = c.ticks := by
  simp [ticksOf]

theorem timesOf_single (c : ClickCycle) : timesOf [c] = c.times := by
  simp [timesOf]

theorem ticksOf_cons (c : ClickCycle) (cs : List ClickCycle) :
    ticksOf (c :: cs) = c.ticks ++ ticksOf cs := rfl

theorem timesOf_cons (c : ClickCycle) (cs : List ClickCycle) :
    timesOf (c :: cs) = c.times ++ timesOf cs := rfl

/-- The counting tick in `OCS_COUNT` history: with a click already counted, room in the
byte and the multi-click slot attached, the next cycle calls the multi-click slot. -/
theorem counted_next (b : TinyButton) (r : Nat) (hs : b._state = OCS_COUNT)
    (hm : b._multiClickFunc = true) (h1 : 1 ≤ b._nClicks) (h2 : b._nClicks + 1 ≤ 255) :
    (b.released r).clickDispatch = [Callback.multiClick] ∧
    (b.released r).counted._nClicks = b._nClicks + 1 ∧
    ((b.released r).counted._newState OCS_INIT)._nClicks = b._nClicks + 1 ∧
    (b.released r).counted._multiClickFunc = true ∧
    (b.released r).counted._clickFunc = b._clickFunc := by
  have e : (b._nClicks + 1) % 256 = b._nClicks + 1 := Nat.mod_eq_of_lt (by omega)
  have e1 : ¬ b._nClicks + 1 = 1 := by omega
  simp [TinyButton.clickDispatch, TinyButton.counted, TinyButton.released,
    TinyButton._newState, hs, hm, BYTE_MOD, e, e1]

/-- Cycles met in `OCS_COUNT`, each staying inside the click gap: every cycle adds one to
the click count and calls the multi-click slot once. -/
theorem run_cycles_gap (cs : List ClickCycle) : ∀ b : TinyButton,
    b._state = OCS_COUNT → b._multiClickFunc = true → 1 ≤ b._nClicks →
    b._nClicks + cs.length ≤ 255 → (∀ d ∈ cs, d.ok ∧ d.inGap) →
    (b.run (ticksOf cs)).2 = List.replicate cs.length Callback.multiClick ∧
    (b.run (ticksOf cs)).1._state = OCS_COUNT ∧
    (b.run (ticksOf cs)).1._multiClickFunc = true ∧
    (b.run (ticksOf cs)).1._nClicks = b._nClicks + cs.length := by
  induction cs with
  | nil =>
    intro b hs hm _ _ _
    simp [ticksOf, run_nil, hs, hm]
  | cons c cs ih =>
    intro b hs hm h1 h2 hok
    simp only [List.length_cons] at h2
    obtain ⟨⟨k1, k2, k3, k4⟩, k5⟩ := hok c (List.mem_cons_self c cs)
    have e := run_cycle_gap b c (Or.inr hs) k1 k2 k3 k4 k5
    obtain ⟨d1, d2, -, d4, -⟩ := counted_next b c.r hs hm h1 (by omega)
    have h := ih (b.released c.r).counted rfl d4 (by omega) (by omega)
      (fun d hd => hok d (List.mem_cons_of_mem c hd))
    simp only [ticksOf, run_append, e, d1, h, d2, List.length_cons]
    refine ⟨?_, trivial, trivial, by omega⟩
    rw [Nat.add_comm cs.length 1, List.replicate_add]
    rfl

/-- Non-decreasing timestamps over consecutive cycles are non-decreasing in each. -/
theorem sorted_each (cs : List ClickCycle)
    (h : List.Pairwise (fun s t => s ≤ t) (timesOf cs)) :
    ∀ d ∈ cs, List.Pairwise (fun s t => s ≤ t) d.times := by
  induction cs with
  | nil => simp
  | cons c cs ih =>
    rw [timesOf_cons] at h
    have hs := List.pairwise_append.mp h
    intro d hd
    rcases List.mem_cons.mp hd with e | e
    · rw [e]
      exact hs.1
    · exact ih hs.2.1 d e

theorem range_each (cs : List ClickCycle) (h : ∀ t ∈ timesOf cs, t < ULONG_MOD) :
    ∀ d ∈ cs, ∀ t ∈ d.times, t < ULONG_MOD := by
  induction cs with
  | nil => simp
  | cons c cs ih =>
    rw [timesOf_cons] at h
    intro d hd t ht
    rcases List.mem_cons.mp hd with e | e
    · rw [e] at ht
      exact h t (List.mem_append_left _ ht)
    · exact ih (fun u hu => h u (List.mem_append_right _ hu)) d e t ht

/-- Cycles met in `OCS_INIT`, all inside the click gap, the multi-click slot attached:
the object ends in `OCS_COUNT` with one click counted per cycle. -/
theorem run_cycles_init (b : TinyButton) (c0 : ClickCycle) (cs : List ClickCycle)
    (hidle : b._state = OCS_INIT) (hmulti : b._multiClickFunc = true)
    (hn : cs.length + 1 ≤ 255) (hok : ∀ d ∈ c0 :: cs, d.ok ∧ d.inGap) :
    (b.run (ticksOf (c0 :: cs))).2
      = (b.released c0.r).clickDispatch ++ List.replicate cs.length Callback.multiClick ∧
    (b.run (ticksOf (c0 :: cs))).1._state = OCS_COUNT ∧
    (b.run (ticksOf (c0 :: cs))).1._multiClickFunc = true ∧
    (b.run (ticksOf (c0 :: cs))).1._nClicks = cs.length + 1 := by
  obtain ⟨⟨k1, k2, k3, k4⟩, k5⟩ := hok c0 (List.mem_cons_self c0 cs)
  have e0 := run_cycle_gap b c0 (Or.inl hidle) k1 k2 k3 k4 k5
  have n0 : (b.released c0.r).counted._nClicks = 1 := by
    simp [TinyButton.counted, TinyButton.released, TinyButton._newState, hidle, BYTE_MOD]
  have m0 : (b.released c0.r).counted._multiClickFunc = true := hmulti
  have h := run_cycles_gap cs (b.released c0.r).counted rfl m0 (by omega) (by omega)
    (fun d hd => hok d (List.mem_cons_of_mem c0 hd))
  rw [ticksOf_cons, run_append, e0]
  simp only [h, n0]
  refine ⟨trivial, trivial, trivial, by omega⟩

/-- Cycles met in `OCS_INIT`: all of `cs` stay inside the click gap, the last cycle `c`
need not. The click slot is called by the first cycle, the multi-click slot by each of the
others, and the count is the number of cycles. -/
theorem run_clicks (b : TinyButton) (cs : List ClickCycle) (c : ClickCycle)
    (hidle : b._state = OCS_INIT) (hclick : b._clickFunc = true)
    (hmulti : b._multiClickFunc = true) (hn : cs.length + 1 ≤ 255)
    (hok : ∀ d ∈ cs, d.ok ∧ d.inGap) (hc : c.ok) :
    (b.run (ticksOf (cs ++ [c]))).1._nClicks = cs.length + 1 ∧
    (b.run (ticksOf (cs ++ [c]))).2
      = Callback.click :: List.replicate cs.length Callback.multiClick := by
  obtain ⟨c1, c2, c3, c4⟩ := hc
  rw [ticksOf_append, ticksOf_single]
  cases cs with
  | nil =>
    rw [ticksOf, List.nil_append]
    rcases run_cycle b c (Or.inl hidle) c1 c2 c3 c4 with e | e <;> rw [e] <;>
      simp [TinyButton.clickDispatch, TinyButton.counted, TinyButton.released,
        TinyButton._newState, hidle, hclick, BYTE_MOD]
  | cons c0 cs =>
    simp only [List.length_cons] at hn ⊢
    have v0 : (b.released c0.r).clickDispatch = [Callback.click] := by
      simp [TinyButton.clickDispatch, TinyButton.released, hidle, hclick, BYTE_MOD]
    obtain ⟨h1, h2, h3, h4⟩ := run_cycles_init b c0 cs hidle hmulti (by omega) hok
    rw [run_append, h1, v0]
    generalize (b.run (ticksOf (c0 :: cs))).1 = b2 at h2 h3 h4
    obtain ⟨d1, d2, d3, -, -⟩ := counted_next b2 c.r h2 h3 (by omega) (by omega)
    rcases run_cycle b2 c (Or.inr h2) c1 c2 c3 c4 with e2 | e2
    · rw [e2]
      simp only [d1, d2]
      refine ⟨by omega, ?_⟩
      rw [List.replicate_succ']
      simp
    · rw [e2]
      simp only [d1, d3]
      refine ⟨by omega, ?_⟩
      rw [List.replicate_succ']
      simp

/-- Every short click is well timed and stays inside the click gap. -/
theorem stdCycle_ok (k : Nat) (hk : k ≤ 1000) : (stdCycle k).ok ∧ (stdCycle k).inGap := by
  simp only [ClickCycle.ok, ClickCycle.inGap, ClickCycle.held, ClickCycle.settled,
    ClickCycle.times, stdCycle, DEBOUNCEMS, PRESSMS, CLICKMS, ULONG_MOD]
  simp
  omega

/-! ## Invariants of reachable objects -/

theorem reachInv_init (b : TinyButton) (hs : b._state = OCS_INIT)
    (hl : b._lastState = OCS_INIT) : b.reachInv := by
  simp [TinyButton.reachInv, hs, hl]

theorem reachInv_tick (b : TinyButton) (lvl : Bool) (now : Nat) (h : b.reachInv) :
    (b.tick lvl now).1.reachInv := by
  obtain ⟨n, c, m, ls, lst, d, st, l, t⟩ := b
  obtain ⟨h1, h2, h3, h4, h5⟩ := h
  simp only at h1 h2 h3 h4 h5
  simp only [TinyButton.tick, TinyButton._newState, TinyButton.reachInv]
  generalize TinyButton.waitTime _ now = w
  cases st <;> cases lvl <;> simp only [] <;> (try split_ifs) <;> simp_all
  all_goals rcases h5 with h5 | h5 | h5 <;> simp [h5]

theorem reachInv_run (ticks : List (Bool × Nat)) :
    ∀ b : TinyButton, b.reachInv → (b.run ticks).1.reachInv := by
  induction ticks with
  | nil => intro b h; exact h
  | cons t rest ih =>
    intro b h
    rw [run_cons]
    exact ih _ (reachInv_tick b t.1 t.2 h)

theorem reachInv_trace (ticks : List (Bool × Nat)) :
    ∀ b : TinyButton, b.reachInv → ∀ e ∈ b.trace ticks, e.1.reachInv := by
  induction ticks with
  | nil => intro b _ e he; simp [TinyButton.trace] at he
  | cons t rest ih =>
    intro b h e he
    rw [trace_cons] at he
    rcases List.mem_cons.mp he with e1 | e1
    · rw [e1]
      exact reachInv_tick b t.1 t.2 h
    · exact ih _ (reachInv_tick b t.1 t.2 h) e e1

/-- A tick never writes a callback slot. -/
theorem tick_slots (b : TinyButton) (lvl : Bool) (now : Nat) :
    (b.tick lvl now).1._clickFunc = b._clickFunc ∧
    (b.tick lvl now).1._multiClickFunc = b._multiClickFunc ∧
    (b.tick lvl now).1._longPressStartFunc = b._longPressStartFunc ∧
    (b.tick lvl now).1._longPressStopFunc = b._longPressStopFunc ∧
    (b.tick lvl now).1._duringLongPressFunc = b._duringLongPressFunc := by
  obtain ⟨n, c, m, ls, lst, d, st, l, t⟩ := b
  cases st <;> cases lvl <;>
    simp only [TinyButton.tick, TinyButton._newState] <;>
    (try split_ifs) <;> simp_all

/-- One tick keeps the long-press calls bracketed: its calls, put in front of a list that
is bracketed from the object after the tick, give a list bracketed from the object before
the tick. -/
theorem bracket_step (b : TinyButton) (lvl : Bool) (now : Nat) (rest : List Callback)
    (hinv : b.reachInv) (h1 : b._longPressStartFunc = true)
    (h2 : b._longPressStopFunc = true)
    (hrest : wellBracketed (b.tick lvl now).1.inLongPress rest = true) :
    wellBracketed b.inLongPress ((b.tick lvl now).2 ++ rest) = true := by
  obtain ⟨n, c, m, ls, lst, d, st, l, t⟩ := b
  obtain ⟨k1, k2, k3, k4, k5⟩ := hinv
  simp only at h1 h2 k1 k2 k3 k4 k5
  subst h1 h2
  revert hrest
  simp only [TinyButton.tick, TinyButton._newState, TinyButton.inLongPress]
  generalize TinyButton.waitTime _ now = w
  cases st <;> cases lvl <;> simp only [] <;> (try split_ifs) <;> simp_all [wellBracketed]
  all_goals rcases k5 with k5 | k5 | k5 <;> simp [k5]

theorem bracket_run (ticks : List (Bool × Nat)) :
    ∀ b : TinyButton, b.reachInv → b._longPressStartFunc = true →
      b._longPressStopFunc = true → wellBracketed b.inLongPress (b.run ticks).2 = true := by
  induction ticks with
  | nil => intro b _ _ _; simp [run_nil, wellBracketed]
  | cons t rest ih =>
    intro b hinv h1 h2
    rw [run_cons]
    obtain ⟨-, -, s3, s4, -⟩ := tick_slots b t.1 t.2
    exact bracket_step b t.1 t.2 _ hinv h1 h2
      (ih _ (reachInv_tick b t.1 t.2 hinv) (by rw [s3]; exact h1) (by rw [s4]; exact h2))

/-! ## The members without initialiser -/

/-- The first pressed tick of a constructed object overwrites `_nClicks` and `_startTime`:
its result does not depend on what they held. -/
theorem tick_init_pressed_eq (b : TinyButton) (n t now : Nat) (hs : b._state = OCS_INIT) :
    ({ b with _nClicks := n, _startTime := t } : TinyButton).tick true now = b.tick true now := by
  have hs2 : ({ b with _nClicks := n, _startTime := t } : TinyButton)._state = OCS_INIT := hs
  rw [tick_init_pressed b now hs,
    tick_init_pressed ({ b with _nClicks := n, _startTime := t } : TinyButton) now hs2]
  simp [TinyButton._newState, hs]

/-! ## Claims -/

/-- C1 (single click). From `OCS_INIT`, with non-decreasing 32-bit timestamps: a pressed
tick at `p`, pressed ticks `holds` each at most `PRESSMS` after `p`, a released tick at `r`
with `r - p ≥ DEBOUNCEMS`, then released ticks among which `x` has `x - r ≥ DEBOUNCEMS` and
the later `y` has `y - r > CLICKMS`. The only callback called over the whole sequence is
the click callback, exactly once when it is attached (never when it is not); afterwards
`getNumberClicks` is 1 and the state is `OCS_INIT`. -/
theorem C1_single_click (b : TinyButton) (p r x y : Nat) (holds rel1 rel2 rel3 : List Nat)
    (hidle : b._state = OCS_INIT)
    (hsorted : List.Pairwise (fun s t => s ≤ t)
      (p :: (holds ++ r :: (rel1 ++ x :: (rel2 ++ y :: rel3)))))
    (hrange : ∀ t ∈ p :: (holds ++ r :: (rel1 ++ x :: (rel2 ++ y :: rel3))), t < ULONG_MOD)
    (hhold : ∀ t ∈ holds, t - p ≤ PRESSMS)
    (hrel : r - p ≥ DEBOUNCEMS)
    (hx : x - r ≥ DEBOUNCEMS)
    (hy : y - r > CLICKMS) :
    (b.run ((true, p) :: (pressedAt holds ++
        (false, r) :: releasedAt (rel1 ++ x :: (rel2 ++ y :: rel3))))).2
      = (if b._clickFunc = true then [Callback.click] else []) ∧
    (b.run ((true, p) :: (pressedAt holds ++
        (false, r) :: releasedAt (rel1 ++ x :: (rel2 ++ y :: rel3))))).1.getNumberClicks = 1 ∧
    (b.run ((true, p) :: (pressedAt holds ++
        (false, r) :: releasedAt (rel1 ++ x :: (rel2 ++ y :: rel3))))).1._state = OCS_INIT ∧
    (b.run ((true, p) :: (pressedAt holds ++
        (false, r) :: releasedAt (rel1 ++ x :: (rel2 ++ y :: rel3))))).1.isIdle = true := by
  obtain ⟨hp, hpr, -, hr2⟩ := sorted_cycle p r holds _ hsorted
  have hrx : r ≤ x := hr2 x (by simp)
  have hry : r ≤ y := hr2 y (by simp)
  have hholds : ∀ t ∈ holds, p ≤ t ∧ t < ULONG_MOD ∧ t - p ≤ PRESSMS := fun t ht =>
    ⟨hp t ht, hrange t (by simp [ht]), hhold t ht⟩
  have hwx : (b.released r).waitTime x ≥ DEBOUNCEMS := by
    rw [waitTime_of_le _ x hrx (hrange x (by simp))]
    exact hx
  have hwy : (b.released r).waitTime y > CLICKMS := by
    rw [waitTime_of_le _ y hry (hrange y (by simp))]
    exact hy
  rw [run_press_release b p r holds _ (Or.inl hidle) hholds hpr (hrange r (by simp)) hrel,
    run_released_close (b.released r) rel1 rel2 rel3 x y rfl hwx hwy]
  simp [TinyButton.clickDispatch, TinyButton.counted, TinyButton.released, TinyButton._newState,
    TinyButton.getNumberClicks, TinyButton.isIdle, hidle, BYTE_MOD]

/-- Witness of C1: press at 1000, pressed ticks at 1005 and 1100, release at 1200,
released ticks at 1204, 1215, 1300, 1401, 1500. -/
theorem C1_single_click_witness :
    ((TinyButton.mk 3 true true true true true OCS_INIT OCS_COUNT 77).run
        ((true, 1000) :: (pressedAt [1005, 1100] ++
          (false, 1200) :: releasedAt ([1204] ++ 1215 :: ([1300] ++ 1401 :: [1500]))))).2
      = [Callback.click] ∧
    ((TinyButton.mk 3 true true true true true OCS_INIT OCS_COUNT 77).run
        ((true, 1000) :: (pressedAt [1005, 1100] ++
          (false, 1200) :: releasedAt ([1204] ++ 1215 :: ([1300] ++ 1401 :: [1500]))))).1.getNumberClicks
      = 1 := by
  have h := C1_single_click (TinyButton.mk 3 true true true true true OCS_INIT OCS_COUNT 77)
    1000 1200 1215 1401 [1005, 1100] [1204] [1300] [1500] rfl (by decide) (by decide)
    (by decide) (by decide) (by decide) (by decide)
  exact ⟨h.1, h.2.1⟩

/-- C2 (double click, multi-click callback attached). From `OCS_INIT`, with non-decreasing
32-bit timestamps, two press/release cycles, each press held at least `DEBOUNCEMS` and at
most `PRESSMS`, each release settled, the released ticks of the first cycle all within
`CLICKMS` of the release (so the second press arrives in `OCS_COUNT`): the ticks of the
first cycle call the click callback (once if attached) and never the multi-click callback,
the ticks of the second cycle call the multi-click callback exactly once and never the
click callback, and `getNumberClicks` is 2 afterwards. -/
theorem C2_double_click_multi (b : TinyButton) (c1 c2 : ClickCycle)
    (hidle : b._state = OCS_INIT) (hmulti : b._multiClickFunc = true)
    (hsorted : List.Pairwise (fun s t => s ≤ t) (c1.times ++ c2.times))
    (hrange : ∀ t ∈ c1.times ++ c2.times, t < ULONG_MOD)
    (hheld1 : c1.held) (hsettled1 : c1.settled) (hgap1 : c1.inGap)
    (hheld2 : c2.held) (hsettled2 : c2.settled) :
    (b.run c1.ticks).2 = (if b._clickFunc = true then [Callback.click] else []) ∧
    (b.run c1.ticks).1._state = OCS_COUNT ∧
    ((b.run c1.ticks).1.run c2.ticks).2 = [Callback.multiClick] ∧
    (b.run (c1.ticks ++ c2.ticks)).2 =
      (if b._clickFunc = true then [Callback.click] else []) ++ [Callback.multiClick] ∧
    (b.run (c1.ticks ++ c2.ticks)).1.getNumberClicks = 2 := by
  have hs := List.pairwise_append.mp hsorted
  have e1 := run_cycle_gap b c1 (Or.inl hidle) hs.1
    (fun t ht => hrange t (List.mem_append_left _ ht)) hheld1 hsettled1 hgap1
  have e2 := run_cycle (b.released c1.r).counted c2 (Or.inr rfl) hs.2.1
    (fun t ht => hrange t (List.mem_append_right _ ht)) hheld2 hsettled2
  rw [run_append, e1]
  rcases e2 with e2 | e2 <;> rw [e2] <;>
    simp [TinyButton.clickDispatch, TinyButton.counted, TinyButton.released,
      TinyButton._newState, TinyButton.getNumberClicks, hidle, hmulti, BYTE_MOD]

/-- Witness of C2: cycles at 1000..1250 and 1300..1560, all callbacks attached. -/
theorem C2_double_click_multi_witness :
    ((TinyButton.mk 9 true true true true true OCS_INIT OCS_INIT 5).run
        ((ClickCycle.mk 1000 [1010] 1100 [1105] 1120 [1250]).ticks ++
          (ClickCycle.mk 1300 [] 1310 [] 1320 [1400, 1560]).ticks)).2
      = [Callback.click, Callback.multiClick] ∧
    ((TinyButton.mk 9 true true true true true OCS_INIT OCS_INIT 5).run
        ((ClickCycle.mk 1000 [1010] 1100 [1105] 1120 [1250]).ticks ++
          (ClickCycle.mk 1300 [] 1310 [] 1320 [1400, 1560]).ticks)).1.getNumberClicks = 2 := by
  have h := C2_double_click_multi (TinyButton.mk 9 true true true true true OCS_INIT OCS_INIT 5)
    (ClickCycle.mk 1000 [1010] 1100 [1105] 1120 [1250])
    (ClickCycle.mk 1300 [] 1310 [] 1320 [1400, 1560]) rfl rfl (by decide) (by decide)
    (by decide) (by decide) (by decide) (by decide) (by decide)
  exact ⟨h.2.2.2.1, h.2.2.2.2⟩

/-- C3 (double click, no multi-click callback). Same two cycles as in C2, the click callback
attached and the multi-click callback not attached: each cycle calls the click callback
exactly once and nothing else, so it is called exactly twice over the sequence, and
`getNumberClicks` is 2 afterwards. -/
theorem C3_double_click_plain (b : TinyButton) (c1 c2 : ClickCycle)
    (hidle : b._state = OCS_INIT) (hclick : b._clickFunc = true)
    (hmulti : b._multiClickFunc = false)
    (hsorted : List.Pairwise (fun s t => s ≤ t) (c1.times ++ c2.times))
    (hrange : ∀ t ∈ c1.times ++ c2.times, t < ULONG_MOD)
    (hheld1 : c1.held) (hsettled1 : c1.settled) (hgap1 : c1.inGap)
    (hheld2 : c2.held) (hsettled2 : c2.settled) :
    (b.run c1.ticks).2 = [Callback.click] ∧
    ((b.run c1.ticks).1.run c2.ticks).2 = [Callback.click] ∧
    (b.run (c1.ticks ++ c2.ticks)).2 = [Callback.click, Callback.click] ∧
    (b.run (c1.ticks ++ c2.ticks)).1.getNumberClicks = 2 := by
  have hs := List.pairwise_append.mp hsorted
  have e1 := run_cycle_gap b c1 (Or.inl hidle) hs.1
    (fun t ht => hrange t (List.mem_append_left _ ht)) hheld1 hsettled1 hgap1
  have e2 := run_cycle (b.released c1.r).counted c2 (Or.inr rfl) hs.2.1
    (fun t ht => hrange t (List.mem_append_right _ ht)) hheld2 hsettled2
  rw [run_append, e1]
  rcases e2 with e2 | e2 <;> rw [e2] <;>
    simp [TinyButton.clickDispatch, TinyButton.counted, TinyButton.released,
      TinyButton._newState, TinyButton.getNumberClicks, hidle, hmulti, hclick, BYTE_MOD]

/-- Witness of C3: the cycles of the C2 witness, multi-click callback not attached. -/
theorem C3_double_click_plain_witness :
    ((TinyButton.mk 9 true false true true true OCS_INIT OCS_INIT 5).run
        ((ClickCycle.mk 1000 [1010] 1100 [1105] 1120 [1250]).ticks ++
          (ClickCycle.mk 1300 [] 1310 [] 1320 [1400, 1560]).ticks)).2
      = [Callback.click, Callback.click] ∧
    ((TinyButton.mk 9 true false true true true OCS_INIT OCS_INIT 5).run
        ((ClickCycle.mk 1000 [1010] 1100 [1105] 1120 [1250]).ticks ++
          (ClickCycle.mk 1300 [] 1310 [] 1320 [1400, 1560]).ticks)).1.getNumberClicks = 2 := by
  have h := C3_double_click_plain (TinyButton.mk 9 true false true true true OCS_INIT OCS_INIT 5)
    (ClickCycle.mk 1000 [1010] 1100 [1105] 1120 [1250])
    (ClickCycle.mk 1300 [] 1310 [] 1320 [1400, 1560]) rfl rfl rfl (by decide) (by decide)
    (by decide) (by decide) (by decide) (by decide) (by decide)
  exact ⟨h.2.2.1, h.2.2.2⟩

/-- C4 (long press). From `OCS_INIT`, with non-decreasing 32-bit timestamps: a pressed tick
at `p`, pressed ticks `pre` at most `PRESSMS` after `p`, the first pressed tick `s` with
`s - p > PRESSMS`, pressed ticks `during`, a released tick at `r`, released ticks `relpre`
less than `DEBOUNCEMS` after `r` and the first released tick `x` with `x - r ≥ DEBOUNCEMS`.
Tick by tick (callbacks called, value of `isLongPressed` after the tick): nothing is called
up to `s`; the tick at `s` calls the long-press-start callback; each tick of `during` calls
the during-long-press callback; nothing is called from `r` up to `x`; the tick at `x` calls
the long-press-stop callback (each callback only when attached, and then exactly once per
tick named). `isLongPressed` holds exactly after the ticks at `s` and `during`. The final
state is `OCS_INIT`. -/
theorem C4_long_press (b : TinyButton) (p s r x : Nat) (pre during relpre : List Nat)
    (hidle : b._state = OCS_INIT)
    (hsorted : List.Pairwise (fun u v => u ≤ v)
      (p :: (pre ++ s :: (during ++ r :: (relpre ++ [x])))))
    (hrange : ∀ t ∈ p :: (pre ++ s :: (during ++ r :: (relpre ++ [x]))), t < ULONG_MOD)
    (hpre : ∀ t ∈ pre, t - p ≤ PRESSMS)
    (hs : s - p > PRESSMS)
    (hrelpre : ∀ t ∈ relpre, t - r < DEBOUNCEMS)
    (hx : x - r ≥ DEBOUNCEMS) :
    (b.trace ((true, p) :: (pressedAt pre ++ (true, s) :: (pressedAt during ++
        (false, r) :: (releasedAt relpre ++ [(false, x)]))))).map
        (fun e => (e.2, e.1.isLongPressed))
      = List.replicate (pre.length + 1) ([], false) ++
        ((if b._longPressStartFunc = true then [Callback.longPressStart] else [], true) ::
        (List.replicate during.length
          (if b._duringLongPressFunc = true then [Callback.duringLongPress] else [], true) ++
        (List.replicate (relpre.length + 1) ([], false) ++
        [(if b._longPressStopFunc = true then [Callback.longPressStop] else [], false)]))) ∧
    (b.run ((true, p) :: (pressedAt pre ++ (true, s) :: (pressedAt during ++
        (false, r) :: (releasedAt relpre ++ [(false, x)]))))).1._state = OCS_INIT := by
  have hp := (List.pairwise_cons.mp hsorted).1
  have h1 := List.pairwise_append.mp (List.pairwise_cons.mp hsorted).2
  have h2 := List.pairwise_append.mp (List.pairwise_cons.mp h1.2.1).2
  have hr := (List.pairwise_cons.mp h2.2.1).1
  have hrg : ∀ t ∈ relpre ++ [x], t < ULONG_MOD := fun t ht => hrange t (by
    simp only [List.mem_cons, List.mem_append] at ht ⊢
    tauto)
  -- the objects met along the sequence
  have e1 := tick_init_pressed b p hidle
  generalize hb1 : ({ b._newState OCS_DOWN with _startTime := p, _nClicks := 0 } : TinyButton)
    = b1 at e1
  have s1 : b1._state = OCS_DOWN := by rw [← hb1]; rfl
  have t1 : b1._startTime = p := by rw [← hb1]
  have wpre : ∀ t ∈ pre, b1.waitTime t ≤ PRESSMS := by
    intro t ht
    rw [waitTime_of_le b1 t (le_of_eq_of_le t1 (hp t (by simp [ht]))) (hrange t (by simp [ht])), t1]
    exact hpre t ht
  have ws : b1.waitTime s > PRESSMS := by
    rw [waitTime_of_le b1 s (le_of_eq_of_le t1 (hp s (by simp))) (hrange s (by simp)), t1]
    exact hs
  have e2 := tick_down_long b1 s s1 ws
  have e3 := tick_press_released (b1._newState OCS_PRESS) r rfl
  generalize hb3 : ({ (b1._newState OCS_PRESS)._newState OCS_PRESSEND with _startTime := r }
    : TinyButton) = b3 at e3
  have s3 : b3._state = OCS_PRESSEND := by rw [← hb3]; rfl
  have t3 : b3._startTime = r := by rw [← hb3]
  have wrel : ∀ t ∈ relpre, b3.waitTime t < DEBOUNCEMS := by
    intro t ht
    rw [waitTime_of_le b3 t (le_of_eq_of_le t3 (hr t (by simp [ht]))) (hrg t (by simp [ht])), t3]
    exact hrelpre t ht
  have wx : b3.waitTime x ≥ DEBOUNCEMS := by
    rw [waitTime_of_le b3 x (le_of_eq_of_le t3 (hr x (by simp))) (hrg x (by simp)), t3]
    exact hx
  have e4 : b3.tick false x = (b3._newState OCS_INIT,
      if b3._longPressStopFunc = true then [Callback.longPressStop] else []) := by
    rw [tick_pressend_released b3 x s3]
    simp [wx]
  have f1 : b1._longPressStartFunc = b._longPressStartFunc := by rw [← hb1]; rfl
  have f2 : b1._duringLongPressFunc = b._duringLongPressFunc := by rw [← hb1]; rfl
  have f3 : b3._longPressStopFunc = b._longPressStopFunc := by rw [← hb3, ← hb1]; rfl
  constructor
  · simp only [trace_cons, trace_append, e1, run_pressed_down b1 pre s1 wpre,
      trace_pressed_down b1 pre s1 wpre, e2,
      trace_pressed_press (b1._newState OCS_PRESS) during rfl,
      run_pressed_press (b1._newState OCS_PRESS) during rfl, e3,
      trace_released_pressend b3 relpre s3 wrel, run_released_pressend b3 relpre s3 wrel, e4,
      TinyButton.trace]
    simp [List.replicate_succ, f1, f2, f3, s1, s3, TinyButton.isLongPressed,
      TinyButton._newState]
  · simp only [run_cons, run_append, e1, run_pressed_down b1 pre s1 wpre, e2,
      run_pressed_press (b1._newState OCS_PRESS) during rfl, e3,
      run_released_pressend b3 relpre s3 wrel, e4, run_nil]
    rfl

/-- Witness of C4: press at 0, pressed ticks at 400, 800, 801, 900, 1000, release at 1100,
released ticks at 1105 and 1110. -/
theorem C4_long_press_witness :
    (freshButton.trace ((true, 0) :: (pressedAt [400, 800] ++ (true, 801) ::
        (pressedAt [900, 1000] ++ (false, 1100) :: (releasedAt [1105] ++ [(false, 1110)]))))).map
        (fun e => (e.2, e.1.isLongPressed))
      = [([], false), ([], false), ([], false), ([Callback.longPressStart], true),
         ([Callback.duringLongPress], true), ([Callback.duringLongPress], true),
         ([], false), ([], false), ([Callback.longPressStop], false)] :=
  (C4_long_press freshButton 0 801 1100 1110 [400, 800] [900, 1000] [1105] rfl
    (by decide) (by decide) (by decide) (by decide) (by decide) (by decide)).1

/-- C5 (debounce rejection, state and callbacks). In `OCS_INIT` or `OCS_COUNT`, with
non-decreasing 32-bit timestamps: a pressed tick at `p`, any further pressed ticks and a
released tick at `r` with `r - p < DEBOUNCEMS` call no callback and leave `_state` as it
was before the pressed tick. -/
theorem C5_debounce_rejection (b : TinyButton) (p r : Nat) (more : List Nat)
    (hs : b._state = OCS_INIT ∨ b._state = OCS_COUNT)
    (hsorted : List.Pairwise (fun u v => u ≤ v) (p :: (more ++ [r])))
    (hrange : ∀ t ∈ p :: (more ++ [r]), t < ULONG_MOD)
    (hbounce : r - p < DEBOUNCEMS) :
    (b.run ((true, p) :: (pressedAt more ++ [(false, r)]))).2 = [] ∧
    (b.run ((true, p) :: (pressedAt more ++ [(false, r)]))).1._state = b._state := by
  obtain ⟨hp, hpr, hmr, -⟩ := sorted_cycle p r more [] hsorted
  have key : ∀ d : TinyButton, d._state = OCS_DOWN → d._startTime = p →
      d.run (pressedAt more ++ [(false, r)]) = (d._newState d._lastState, []) := by
    intro d hd hst
    have h1 : ∀ t ∈ more, d.waitTime t ≤ PRESSMS := by
      intro t ht
      have a := hp t ht
      have c := hmr t ht
      rw [waitTime_of_le d t (by omega) (hrange t (by simp [ht])), hst]
      simp only [DEBOUNCEMS, PRESSMS] at *
      omega
    have h2 : d.waitTime r < DEBOUNCEMS := by
      rw [waitTime_of_le d r (by omega) (hrange r (by simp)), hst]
      exact hbounce
    rw [run_append, run_pressed_down d more hd h1, run_cons]
    simp [tick_down_bounce d r hd h2, run_nil]
  rcases hs with hs | hs
  · rw [run_cons]
    simp only [tick_init_pressed b p hs]
    rw [key _ rfl rfl]
    simp [TinyButton._newState]
  · rw [run_cons]
    simp only [tick_count_pressed b p hs]
    rw [key _ rfl rfl]
    simp [TinyButton._newState]

/-- Witness of C5: a bounce of 9 ms met in `OCS_COUNT`. -/
theorem C5_debounce_rejection_witness :
    ((TinyButton.mk 1 true true true true true OCS_COUNT OCS_UP 900).run
        ((true, 1000) :: (pressedAt [1003, 1006] ++ [(false, 1009)]))).2 = [] ∧
    ((TinyButton.mk 1 true true true true true OCS_COUNT OCS_UP 900).run
        ((true, 1000) :: (pressedAt [1003, 1006] ++ [(false, 1009)]))).1._state = OCS_COUNT :=
  C5_debounce_rejection (TinyButton.mk 1 true true true true true OCS_COUNT OCS_UP 900)
    1000 1009 [1003, 1006] (Or.inr rfl) (by decide) (by decide) (by decide)

/-- C6, counterexample. `idleAfterClick` is idle with `getNumberClicks = 1` and entry time
20, retained from a completed single click. A pressed tick at 1000 and a released tick at
1005 (5 ms, less than `DEBOUNCEMS`) bring it back to `OCS_INIT`, but `getNumberClicks` is
now 0 and the entry time is 1000, so `getPressDuration 2000` moved from 1980 to 1000. -/
theorem C6_counterexample :
    idleAfterClick._state = OCS_INIT ∧ idleAfterClick.getNumberClicks = 1 ∧
    idleAfterClick._startTime = 20 ∧ idleAfterClick.getPressDuration 2000 = 1980 ∧
    1005 - 1000 < DEBOUNCEMS ∧
    (idleAfterClick.run [(true, 1000), (false, 1005)]).1._state = OCS_INIT ∧
    (idleAfterClick.run [(true, 1000), (false, 1005)]).1.getNumberClicks = 0 ∧
    (idleAfterClick.run [(true, 1000), (false, 1005)]).1._startTime = 1000 ∧
    (idleAfterClick.run [(true, 1000), (false, 1005)]).1.getPressDuration 2000 = 1000 := by
  decide

/-- C6, amended. In `OCS_INIT` or `OCS_COUNT`, a pressed tick at `p` followed by a released
tick at `r`, `p ≤ r < 2^32`, `r - p < DEBOUNCEMS`: the state is as before the pressed tick;
`getNumberClicks` is unchanged when the state was `OCS_COUNT` and is 0 when it was
`OCS_INIT`; the entry time is `p` afterwards, so `getPressDuration t` is `t - p` modulo
`2^32` for every `t`. -/
theorem C6_debounce_counters (b : TinyButton) (p r : Nat)
    (hs : b._state = OCS_INIT ∨ b._state = OCS_COUNT)
    (hpr : p ≤ r) (hr : r < ULONG_MOD) (hbounce : r - p < DEBOUNCEMS) :
    (b.run [(true, p), (false, r)]).1._state = b._state ∧
    (b._state = OCS_COUNT →
      (b.run [(true, p), (false, r)]).1.getNumberClicks = b.getNumberClicks) ∧
    (b._state = OCS_INIT → (b.run [(true, p), (false, r)]).1.getNumberClicks = 0) ∧
    (b.run [(true, p), (false, r)]).1._startTime = p ∧
    ∀ t, (b.run [(true, p), (false, r)]).1.getPressDuration t
      = (t % ULONG_MOD + (ULONG_MOD - p % ULONG_MOD)) % ULONG_MOD := by
  have key : ∀ d : TinyButton, d._state = OCS_DOWN → d._startTime = p →
      d.tick false r = (d._newState d._lastState, []) := by
    intro d hd hst
    have h2 : d.waitTime r < DEBOUNCEMS := by
      rw [waitTime_of_le d r (by omega) hr, hst]
      exact hbounce
    exact tick_down_bounce d r hd h2
  rcases hs with hs | hs
  · simp only [run_cons, run_nil, tick_init_pressed b p hs]
    rw [key _ rfl rfl]
    simp [TinyButton._newState, TinyButton.getNumberClicks, TinyButton.getPressDuration, hs]
  · simp only [run_cons, run_nil, tick_count_pressed b p hs]
    rw [key _ rfl rfl]
    simp [TinyButton._newState, TinyButton.getNumberClicks, TinyButton.getPressDuration, hs]

/-- Witness of C6 amended: a 5 ms bounce met in `OCS_COUNT` with two clicks counted. -/
theorem C6_debounce_counters_witness :
    ((TinyButton.mk 2 true true true true true OCS_COUNT OCS_UP 900).run
        [(true, 1000), (false, 1005)]).1.getNumberClicks = 2 ∧
    ((TinyButton.mk 2 true true true true true OCS_COUNT OCS_UP 900).run
        [(true, 1000), (false, 1005)]).1._startTime = 1000 :=
  ⟨(C6_debounce_counters (TinyButton.mk 2 true true true true true OCS_COUNT OCS_UP 900)
      1000 1005 (Or.inr rfl) (by decide) (by decide) (by decide)).2.1 rfl,
   (C6_debounce_counters (TinyButton.mk 2 true true true true true OCS_COUNT OCS_UP 900)
      1000 1005 (Or.inr rfl) (by decide) (by decide) (by decide)).2.2.2.1⟩

/-- C7 (idempotent idle). In `OCS_INIT`, whatever the other members hold, a released tick
at any time calls no callback and returns the object unchanged; so does any sequence of
released ticks. -/
theorem C7_idle_idempotent (b : TinyButton) (now : Nat) (ts : List Nat)
    (hidle : b._state = OCS_INIT) :
    b.tick false now = (b, []) ∧ b.run (releasedAt ts) = (b, []) :=
  ⟨tick_init_released b now hidle, run_released_init b ts hidle⟩

/-- Witness of C7: three released ticks, the last one with an earlier timestamp. -/
theorem C7_idle_idempotent_witness :
    idleAfterClick.tick false 7 = (idleAfterClick, []) ∧
    idleAfterClick.run (releasedAt [500, 4000000000, 3]) = (idleAfterClick, []) :=
  C7_idle_idempotent idleAfterClick 7 [500, 4000000000, 3] (by decide)

/-- C8, counterexample. Starting from `freshButton`, the ticks `manyClicks` (255 short
clicks in one episode, then a press and its release) lead to `OCS_UP` with
`getNumberClicks = 255`; the next released tick, at 25540, is the transition from `OCS_UP`
to `OCS_COUNT`, not the one from `OCS_INIT` to `OCS_DOWN`, and it takes `getNumberClicks`
from 255 down to 0. -/
theorem C8_counterexample :
    freshButton._state = OCS_INIT ∧ freshButton._lastState = OCS_INIT ∧
    (freshButton.run manyClicks).1._state = OCS_UP ∧
    (freshButton.run manyClicks).1.getNumberClicks = 255 ∧
    ((freshButton.run manyClicks).1.tick false 25540).1._state = OCS_COUNT ∧
    ((freshButton.run manyClicks).1.tick false 25540).1.getNumberClicks = 0 := by
  have hform : stdCycles 255 = stdCycle 0 :: ((List.range 254).map Nat.succ).map stdCycle := by
    rw [stdCycles, List.range_succ_eq_map, List.map_cons]
  have hok : ∀ d ∈ stdCycle 0 :: ((List.range 254).map Nat.succ).map stdCycle,
      d.ok ∧ d.inGap := by
    intro d hd
    rw [← hform, stdCycles, List.mem_map] at hd
    obtain ⟨k, hk, rfl⟩ := hd
    exact stdCycle_ok k (by have := List.mem_range.mp hk; omega)
  obtain ⟨-, h2, -, h4⟩ := run_cycles_init freshButton (stdCycle 0)
    (((List.range 254).map Nat.succ).map stdCycle) rfl rfl (by simp) hok
  rw [← hform] at h2 h4
  simp only [List.length_map, List.length_range] at h4
  have hrun : freshButton.run manyClicks
      = (((freshButton.run (ticksOf (stdCycles 255))).1.released 25520),
          (freshButton.run (ticksOf (stdCycles 255))).2) := by
    rw [manyClicks, run_append]
    have e := run_press_release (freshButton.run (ticksOf (stdCycles 255))).1 25500 25520 [] []
      (Or.inr h2) (by simp) (by decide) (by decide) (by decide)
    rw [run_nil] at e
    have e' : (freshButton.run (ticksOf (stdCycles 255))).1.run [(true, 25500), (false, 25520)]
        = ((freshButton.run (ticksOf (stdCycles 255))).1.released 25520, []) := e
    rw [e']
    simp
  rw [hrun]
  generalize (freshButton.run (ticksOf (stdCycles 255))).1 = b2 at h2 h4
  have hw : (b2.released 25520).waitTime 25540 ≥ DEBOUNCEMS := by
    rw [waitTime_of_le _ 25540 (by simp [TinyButton.released]) (by decide)]
    simp [TinyButton.released, DEBOUNCEMS]
  rw [tick_up_released (b2.released 25520) 25540 rfl, if_pos hw]
  simp [TinyButton.released, TinyButton.counted, TinyButton._newState,
    TinyButton.getNumberClicks, h2, h4, BYTE_MOD, freshButton]

/-- C8, amended. After any tick sequence from any starting object (in particular the
constructed one), for a tick met with `getNumberClicks` below 255: the count after the
tick is at least the count before it unless the tick is the transition from `OCS_INIT` to
`OCS_DOWN`, and a tick that takes a non-zero count to 0 is that transition. -/
theorem C8_count_monotone (b0 : TinyButton) (ticks : List (Bool × Nat)) (lvl : Bool)
    (now : Nat) (hroom : (b0.run ticks).1.getNumberClicks < 255) :
    (¬ ((b0.run ticks).1._state = OCS_INIT ∧
          ((b0.run ticks).1.tick lvl now).1._state = OCS_DOWN) →
      (b0.run ticks).1.getNumberClicks ≤ ((b0.run ticks).1.tick lvl now).1.getNumberClicks) ∧
    (((b0.run ticks).1.tick lvl now).1.getNumberClicks = 0 →
      (b0.run ticks).1.getNumberClicks ≠ 0 →
      (b0.run ticks).1._state = OCS_INIT ∧
        ((b0.run ticks).1.tick lvl now).1._state = OCS_DOWN) := by
  generalize (b0.run ticks).1 = b at hroom
  obtain ⟨n, c, m, ls, lst, d, st, l, t⟩ := b
  simp only [TinyButton.getNumberClicks] at hroom
  have e : (n + 1) % 256 = n + 1 := Nat.mod_eq_of_lt (by omega)
  cases st <;> cases lvl <;>
    simp only [TinyButton.tick, TinyButton._newState, TinyButton.getNumberClicks, BYTE_MOD, e] <;>
    (try split_ifs) <;> simp_all

/-- Witness of C8 amended: the counting tick of the second click of an episode. -/
theorem C8_count_monotone_witness :
    (freshButton.run [(true, 0), (false, 20), (false, 40), (true, 100), (false, 120)]).1.getNumberClicks
      ≤ ((freshButton.run [(true, 0), (false, 20), (false, 40), (true, 100),
          (false, 120)]).1.tick false 140).1.getNumberClicks :=
  (C8_count_monotone freshButton [(true, 0), (false, 20), (false, 40), (true, 100), (false, 120)]
    false 140 (by decide)).1 (by decide)

/-- C9 (n-click counting). From `OCS_INIT` with the click and the multi-click callbacks
attached, with non-decreasing 32-bit timestamps: `n` consecutive press/release cycles,
`1 ≤ n ≤ 255`, each press held at least `DEBOUNCEMS` and at most `PRESSMS`, each release
settled, the released ticks of every cycle but the last within `CLICKMS` of the release (so
each following press arrives in `OCS_COUNT`). Afterwards `getNumberClicks = n` and the
callbacks called are, in order, the click callback once and then the multi-click callback
`n - 1` times. -/
theorem C9_n_clicks (b : TinyButton) (cs : List ClickCycle)
    (hidle : b._state = OCS_INIT) (hclick : b._clickFunc = true)
    (hmulti : b._multiClickFunc = true)
    (hn1 : 1 ≤ cs.length) (hn2 : cs.length ≤ 255)
    (hsorted : List.Pairwise (fun s t => s ≤ t) (timesOf cs))
    (hrange : ∀ t ∈ timesOf cs, t < ULONG_MOD)
    (hheld : ∀ d ∈ cs, d.held) (hsettled : ∀ d ∈ cs, d.settled)
    (hgap : ∀ d ∈ cs.dropLast, d.inGap) :
    (b.run (ticksOf cs)).1.getNumberClicks = cs.length ∧
    (b.run (ticksOf cs)).2
      = Callback.click :: List.replicate (cs.length - 1) Callback.multiClick := by
  have hok : ∀ d ∈ cs, d.ok := fun d hd =>
    ⟨sorted_each cs hsorted d hd, range_each cs hrange d hd, hheld d hd, hsettled d hd⟩
  rcases List.eq_nil_or_concat cs with e | ⟨L, c, e⟩
  · rw [e] at hn1
    simp at hn1
  · rw [List.concat_eq_append] at e
    subst e
    rw [List.dropLast_concat] at hgap
    have h := run_clicks b L c hidle hclick hmulti (by simpa using hn2)
      (fun d hd => ⟨hok d (by simp [hd]), hgap d hd⟩) (hok c (by simp))
    simpa [TinyButton.getNumberClicks] using h

/-- Witness of C9: a triple click; the last cycle has a released tick beyond the gap. -/
theorem C9_n_clicks_witness :
    (freshButton.run (ticksOf [stdCycle 0, stdCycle 1,
        ClickCycle.mk 200 [210] 230 [235] 240 [500]])).1.getNumberClicks = 3 ∧
    (freshButton.run (ticksOf [stdCycle 0, stdCycle 1,
        ClickCycle.mk 200 [210] 230 [235] 240 [500]])).2
      = [Callback.click, Callback.multiClick, Callback.multiClick] :=
  C9_n_clicks freshButton [stdCycle 0, stdCycle 1, ClickCycle.mk 200 [210] 230 [235] 240 [500]]
    rfl rfl rfl (by decide) (by decide) (by decide) (by decide) (by decide) (by decide)
    (by decide)

/-- C10 (click count retained when an episode closes). In `OCS_COUNT`, a tick with any
level at any time leaves `getNumberClicks` unchanged; a released tick whose elapsed time
exceeds `CLICKMS` moves to `OCS_INIT` with the count kept, and every further sequence of
released ticks stays in `OCS_INIT` with that same count. -/
theorem C10_count_retained (b : TinyButton) (lvl : Bool) (now : Nat) (ts : List Nat)
    (hs : b._state = OCS_COUNT) :
    (b.tick lvl now).1.getNumberClicks = b.getNumberClicks ∧
    (b.waitTime now > CLICKMS →
      (b.tick false now).1._state = OCS_INIT ∧
      (b.tick false now).1.getNumberClicks = b.getNumberClicks ∧
      ((b.tick false now).1.run (releasedAt ts)).1._state = OCS_INIT ∧
      ((b.tick false now).1.run (releasedAt ts)).1.getNumberClicks = b.getNumberClicks) := by
  constructor
  · cases lvl
    · rw [tick_count_released b now hs]
      by_cases hw : b.waitTime now > CLICKMS <;>
        simp [hw, TinyButton.getNumberClicks, TinyButton._newState]
    · rw [tick_count_pressed b now hs]
      simp [TinyButton.getNumberClicks, TinyButton._newState]
  · intro hw
    rw [tick_count_released b now hs]
    simp only [hw, if_true]
    rw [run_released_init (b._newState OCS_INIT) ts rfl]
    simp [TinyButton.getNumberClicks, TinyButton._newState]

/-- Witness of C10: two clicks counted, the gap expires at the tick at 1201. -/
theorem C10_count_retained_witness :
    ((TinyButton.mk 2 true true true true true OCS_COUNT OCS_UP 1000).tick false 1201).1._state
      = OCS_INIT ∧
    (((TinyButton.mk 2 true true true true true OCS_COUNT OCS_UP 1000).tick false 1201).1.run
      (releasedAt [1300, 5000])).1.getNumberClicks = 2 :=
  ⟨((C10_count_retained (TinyButton.mk 2 true true true true true OCS_COUNT OCS_UP 1000)
      false 1201 [1300, 5000] rfl).2 (by decide)).1,
   ((C10_count_retained (TinyButton.mk 2 true true true true true OCS_COUNT OCS_UP 1000)
      false 1201 [1300, 5000] rfl).2 (by decide)).2.2.2⟩

/-- C11, counterexample. An object in `OCS_UP` with `getNumberClicks = 255` (the count
reached after 255 clicks of one episode), entry time 25520; the tick at 25540 sees 20 ms
elapsed, moves to `OCS_COUNT` and leaves `getNumberClicks` at 0, not at 256. -/
theorem C11_counterexample :
    (TinyButton.mk 255 true true true true true OCS_UP OCS_DOWN 25520)._state = OCS_UP ∧
    (TinyButton.mk 255 true true true true true OCS_UP OCS_DOWN 25520).waitTime 25540
      ≥ DEBOUNCEMS ∧
    ((TinyButton.mk 255 true true true true true OCS_UP OCS_DOWN 25520).tick false 25540).1._state
      = OCS_COUNT ∧
    ((TinyButton.mk 255 true true true true true OCS_UP OCS_DOWN 25520).tick false
        25540).1.getNumberClicks = 0 ∧
    ((TinyButton.mk 255 true true true true true OCS_UP OCS_DOWN 25520).tick false
        25540).1.getNumberClicks
      ≠ (TinyButton.mk 255 true true true true true OCS_UP OCS_DOWN 25520).getNumberClicks + 1 := by
  decide

/-- C11, amended. In `OCS_UP` with elapsed time at least `DEBOUNCEMS`, for either level:
the tick moves to `OCS_COUNT`; it adds exactly 1 to `getNumberClicks` when the count is
below 255; it calls the click slot (only if attached) when the new count is 1 or no
multi-click function is attached, otherwise it calls the multi-click slot and not the
click slot; it calls nothing else. -/
theorem C11_click_dispatch (b : TinyButton) (lvl : Bool) (now : Nat)
    (hs : b._state = OCS_UP) (hw : b.waitTime now ≥ DEBOUNCEMS) :
    (b.tick lvl now).1._state = OCS_COUNT ∧
    (b.getNumberClicks < 255 → (b.tick lvl now).1.getNumberClicks = b.getNumberClicks + 1) ∧
    (((b.tick lvl now).1.getNumberClicks = 1 ∨ b._multiClickFunc = false) →
      (b.tick lvl now).2 = if b._clickFunc = true then [Callback.click] else []) ∧
    (¬ ((b.tick lvl now).1.getNumberClicks = 1 ∨ b._multiClickFunc = false) →
      (b.tick lvl now).2 = [Callback.multiClick]) := by
  have h1 : ¬ b.waitTime now < DEBOUNCEMS := Nat.not_lt.mpr hw
  have e : b.tick lvl now = (b.counted, b.clickDispatch) := by
    simp only [TinyButton.tick, hs, TinyButton.counted, TinyButton.clickDispatch,
      TinyButton._newState]
    by_cases hd : (b._nClicks + 1) % BYTE_MOD = 1 ∨ b._multiClickFunc = false
    · simp [h1, hw, hd]
    · simp [h1, hw, hd]
  rw [e]
  refine ⟨rfl, ?_, ?_, ?_⟩
  · intro hlt
    simp only [TinyButton.getNumberClicks] at hlt
    simp only [TinyButton.counted, TinyButton.getNumberClicks, BYTE_MOD]
    exact Nat.mod_eq_of_lt (by omega)
  · intro hd
    simp only [TinyButton.counted, TinyButton.getNumberClicks] at hd
    simp [TinyButton.clickDispatch, hd]
  · intro hd
    simp only [TinyButton.counted, TinyButton.getNumberClicks] at hd
    simp [TinyButton.clickDispatch, hd]

/-- Witness of C11 amended: the second click of an episode, pressed level, multi-click
function attached. -/
theorem C11_click_dispatch_witness :
    ((TinyButton.mk 1 true true true true true OCS_UP OCS_DOWN 500).tick true 510).1._state
      = OCS_COUNT ∧
    ((TinyButton.mk 1 true true true true true OCS_UP OCS_DOWN 500).tick true
        510).1.getNumberClicks = 2 ∧
    ((TinyButton.mk 1 true true true true true OCS_UP OCS_DOWN 500).tick true 510).2
      = [Callback.multiClick] :=
  ⟨(C11_click_dispatch (TinyButton.mk 1 true true true true true OCS_UP OCS_DOWN 500)
      true 510 rfl (by decide)).1,
   (C11_click_dispatch (TinyButton.mk 1 true true true true true OCS_UP OCS_DOWN 500)
      true 510 rfl (by decide)).2.1 (by decide),
   (C11_click_dispatch (TinyButton.mk 1 true true true true true OCS_UP OCS_DOWN 500)
      true 510 rfl (by decide)).2.2.2 (by decide)⟩

/-- C12, counterexample. After a press at 0 and a release at 20 the object is in `OCS_UP`
with entry time 20; the tick at 40 (20 ms elapsed) moves it to `OCS_COUNT`, and the entry
time is still 20, not 40. -/
theorem C12_counterexample :
    (freshButton.run [(true, 0), (false, 20)]).1._state = OCS_UP ∧
    (freshButton.run [(true, 0), (false, 20)]).1.waitTime 40 ≥ DEBOUNCEMS ∧
    ((freshButton.run [(true, 0), (false, 20)]).1.tick false 40).1._state = OCS_COUNT ∧
    ((freshButton.run [(true, 0), (false, 20)]).1.tick false 40).1._startTime = 20 ∧
    ((freshButton.run [(true, 0), (false, 20)]).1.tick false 40).1._startTime ≠ 40 := by
  decide

/-- C12, amended. In `OCS_UP` with elapsed time at least `DEBOUNCEMS`, the tick that moves
to `OCS_COUNT` leaves the entry time as it was (the time of the release that entered
`OCS_UP`), so the elapsed time compared with `CLICKMS` in `OCS_COUNT` is measured from
that release. -/
theorem C12_entry_time_kept (b : TinyButton) (lvl : Bool) (now : Nat)
    (hs : b._state = OCS_UP) (hw : b.waitTime now ≥ DEBOUNCEMS) :
    (b.tick lvl now).1._state = OCS_COUNT ∧
    (b.tick lvl now).1._startTime = b._startTime ∧
    ∀ t, (b.tick lvl now).1.waitTime t = b.waitTime t := by
  have h1 : ¬ b.waitTime now < DEBOUNCEMS := Nat.not_lt.mpr hw
  have e : (b.tick lvl now).1 = b.counted := by
    simp only [TinyButton.tick, hs, TinyButton.counted, TinyButton._newState]
    by_cases hd : (b._nClicks + 1) % BYTE_MOD = 1 ∨ b._multiClickFunc = false
    · simp [h1, hw, hd]
    · simp [h1, hw, hd]
  rw [e]
  exact ⟨rfl, rfl, fun _ => rfl⟩

/-- Witness of C12 amended: release at 500, counting tick at 600. -/
theorem C12_entry_time_kept_witness :
    ((TinyButton.mk 0 true true true true true OCS_UP OCS_DOWN 500).tick false 600).1._state
      = OCS_COUNT ∧
    ((TinyButton.mk 0 true true true true true OCS_UP OCS_DOWN 500).tick false 600).1._startTime
      = 500 :=
  ⟨(C12_entry_time_kept (TinyButton.mk 0 true true true true true OCS_UP OCS_DOWN 500)
      false 600 rfl (by decide)).1,
   (C12_entry_time_kept (TinyButton.mk 0 true true true true true OCS_UP OCS_DOWN 500)
      false 600 rfl (by decide)).2.1⟩

/-- C13 (threshold boundaries). With `elapsed` the value of `waitTime`:
(a) in `OCS_DOWN` a released tick with `elapsed = DEBOUNCEMS` moves to `OCS_UP` and records
`now` as entry time, one with `elapsed = DEBOUNCEMS - 1` goes back to `_lastState`;
(b) in `OCS_DOWN` a pressed tick with `elapsed = PRESSMS` changes nothing and calls nothing,
one with `elapsed = PRESSMS + 1` calls the long-press-start slot (if attached) and moves to
`OCS_PRESS`;
(c) in `OCS_COUNT` a released tick with `elapsed = CLICKMS` changes nothing, one with
`elapsed = CLICKMS + 1` moves to `OCS_INIT`. -/
theorem C13_threshold_boundaries (b : TinyButton) (now : Nat) :
    (b._state = OCS_DOWN → b.waitTime now = DEBOUNCEMS →
      (b.tick false now).1._state = OCS_UP ∧ (b.tick false now).1._startTime = now ∧
      (b.tick false now).2 = []) ∧
    (b._state = OCS_DOWN → b.waitTime now = DEBOUNCEMS - 1 →
      (b.tick false now).1._state = b._lastState ∧ (b.tick false now).2 = []) ∧
    (b._state = OCS_DOWN → b.waitTime now = PRESSMS → b.tick true now = (b, [])) ∧
    (b._state = OCS_DOWN → b.waitTime now = PRESSMS + 1 →
      (b.tick true now).1._state = OCS_PRESS ∧
      (b.tick true now).2
        = if b._longPressStartFunc = true then [Callback.longPressStart] else []) ∧
    (b._state = OCS_COUNT → b.waitTime now = CLICKMS → b.tick false now = (b, [])) ∧
    (b._state = OCS_COUNT → b.waitTime now = CLICKMS + 1 →
      (b.tick false now).1._state = OCS_INIT ∧ (b.tick false now).2 = []) := by
  refine ⟨?_, ?_, ?_, ?_, ?_, ?_⟩
  · intro hs hw
    rw [tick_down_released b now hs (by rw [hw])]
    exact ⟨rfl, rfl, rfl⟩
  · intro hs hw
    rw [tick_down_bounce b now hs (by rw [hw]; decide)]
    exact ⟨rfl, rfl⟩
  · intro hs hw
    exact tick_down_pressed b now hs (by rw [hw])
  · intro hs hw
    rw [tick_down_long b now hs (by rw [hw]; decide)]
    exact ⟨rfl, rfl⟩
  · intro hs hw
    rw [tick_count_released b now hs, hw]
    simp
  · intro hs hw
    rw [tick_count_released b now hs, hw]
    simp [TinyButton._newState]

/-- Witness of C13: on an object in `OCS_DOWN` entered at time 1000, the released tick at
1010 is accepted and the pressed tick at 1801 starts the long press. -/
theorem C13_threshold_boundaries_witness :
    ((TinyButton.mk 0 true true true true true OCS_DOWN OCS_COUNT 1000).tick false 1010).1._state
      = OCS_UP ∧
    ((TinyButton.mk 0 true true true true true OCS_DOWN OCS_COUNT 1000).tick true 1801).2
      = [Callback.longPressStart] :=
  ⟨((C13_threshold_boundaries (TinyButton.mk 0 true true true true true OCS_DOWN OCS_COUNT 1000)
      1010).1 rfl (by decide)).1,
   ((C13_threshold_boundaries (TinyButton.mk 0 true true true true true OCS_DOWN OCS_COUNT 1000)
      1801).2.2.2.1 rfl (by decide)).2⟩

/-- C14 (previous-state bookkeeping). For every object, level and time: when the tick
changes `_state`, `_lastState` after the tick is `_state` before it (a bounce rollback
swaps the two); when the tick leaves `_state` as it was, `_lastState` is unchanged. -/
theorem C14_previous_state (b : TinyButton) (lvl : Bool) (now : Nat) :
    ((b.tick lvl now).1._state ≠ b._state → (b.tick lvl now).1._lastState = b._state) ∧
    ((b.tick lvl now).1._state = b._state → (b.tick lvl now).1._lastState = b._lastState) := by
  obtain ⟨n, c, m, ls, lst, d, st, l, t⟩ := b
  cases st <;> cases lvl <;>
    simp only [TinyButton.tick, TinyButton._newState] <;>
    (try split_ifs) <;> simp_all

/-- Witness of C14: a bounce in `OCS_DOWN` swaps `_state` and `_lastState`. -/
theorem C14_previous_state_witness :
    ((TinyButton.mk 1 true true true true true OCS_DOWN OCS_COUNT 1000).tick false
        1005).1._lastState = OCS_DOWN :=
  (C14_previous_state (TinyButton.mk 1 true true true true true OCS_DOWN OCS_COUNT 1000)
    false 1005).1 (by decide)

/-- C15 (at most one callback per tick). For every object, level and time the tick calls
at most one slot, and a call is one of: long-press start on `OCS_DOWN` to `OCS_PRESS`;
click or multi-click on `OCS_UP` to `OCS_COUNT`; during-long-press on a pressed tick in
`OCS_PRESS`; long-press stop on `OCS_PRESSEND` to `OCS_INIT`. -/
theorem C15_one_callback (b : TinyButton) (lvl : Bool) (now : Nat) :
    (b.tick lvl now).2.length ≤ 1 ∧
    ∀ e ∈ (b.tick lvl now).2,
      (e = Callback.longPressStart ∧ b._state = OCS_DOWN ∧
        (b.tick lvl now).1._state = OCS_PRESS) ∨
      ((e = Callback.click ∨ e = Callback.multiClick) ∧ b._state = OCS_UP ∧
        (b.tick lvl now).1._state = OCS_COUNT) ∨
      (e = Callback.duringLongPress ∧ b._state = OCS_PRESS ∧ lvl = true ∧
        (b.tick lvl now).1._state = OCS_PRESS) ∨
      (e = Callback.longPressStop ∧ b._state = OCS_PRESSEND ∧
        (b.tick lvl now).1._state = OCS_INIT) := by
  obtain ⟨n, c, m, ls, lst, d, st, l, t⟩ := b
  cases st <;> cases lvl <;>
    simp only [TinyButton.tick, TinyButton._newState] <;>
    (try split_ifs) <;> simp_all

/-- Witness of C15: the tick that starts a long press calls one slot, the start slot. -/
theorem C15_one_callback_witness :
    ((TinyButton.mk 0 true true true true true OCS_DOWN OCS_INIT 1000).tick true 1801).2.length
      ≤ 1 ∧
    ((Callback.longPressStart = Callback.longPressStart ∧
        (TinyButton.mk 0 true true true true true OCS_DOWN OCS_INIT 1000)._state = OCS_DOWN ∧
        ((TinyButton.mk 0 true true true true true OCS_DOWN OCS_INIT 1000).tick true
          1801).1._state = OCS_PRESS) ∨
      ((Callback.longPressStart = Callback.click ∨
          Callback.longPressStart = Callback.multiClick) ∧
        (TinyButton.mk 0 true true true true true OCS_DOWN OCS_INIT 1000)._state = OCS_UP ∧
        ((TinyButton.mk 0 true true true true true OCS_DOWN OCS_INIT 1000).tick true
          1801).1._state = OCS_COUNT) ∨
      (Callback.longPressStart = Callback.duringLongPress ∧
        (TinyButton.mk 0 true true true true true OCS_DOWN OCS_INIT 1000)._state = OCS_PRESS ∧
        true = true ∧
        ((TinyButton.mk 0 true true true true true OCS_DOWN OCS_INIT 1000).tick true
          1801).1._state = OCS_PRESS) ∨
      (Callback.longPressStart = Callback.longPressStop ∧
        (TinyButton.mk 0 true true true true true OCS_DOWN OCS_INIT 1000)._state
          = OCS_PRESSEND ∧
        ((TinyButton.mk 0 true true true true true OCS_DOWN OCS_INIT 1000).tick true
          1801).1._state = OCS_INIT)) :=
  ⟨(C15_one_callback (TinyButton.mk 0 true true true true true OCS_DOWN OCS_INIT 1000)
      true 1801).1,
   (C15_one_callback (TinyButton.mk 0 true true true true true OCS_DOWN OCS_INIT 1000)
      true 1801).2 Callback.longPressStart (by decide)⟩

/-- C16 (the defensive reset is unreachable). From a constructed object (`_state` and
`_lastState` both `OCS_INIT`), for every finite sequence of ticks with any levels and
times: after every tick of the sequence, and at its end, neither `_state` nor `_lastState`
is `UNKNOWN`, so no tick of the sequence takes the default branch. And a tick applied to
an object whose `_state` is `UNKNOWN` calls nothing and moves to `OCS_INIT`. -/
theorem C16_default_unreachable (b0 : TinyButton) (ticks : List (Bool × Nat))
    (hs : b0._state = OCS_INIT) (hl : b0._lastState = OCS_INIT) :
    (∀ e ∈ b0.trace ticks, e.1._state ≠ UNKNOWN ∧ e.1._lastState ≠ UNKNOWN) ∧
    (b0.run ticks).1._state ≠ UNKNOWN ∧ (b0.run ticks).1._lastState ≠ UNKNOWN ∧
    ∀ (b : TinyButton) (lvl : Bool) (now : Nat), b._state = UNKNOWN →
      (b.tick lvl now).2 = [] ∧ (b.tick lvl now).1._state = OCS_INIT := by
  have h0 := reachInv_init b0 hs hl
  refine ⟨fun e he => ?_, (reachInv_run ticks b0 h0).1, (reachInv_run ticks b0 h0).2.1, ?_⟩
  · exact ⟨(reachInv_trace ticks b0 h0 e he).1, (reachInv_trace ticks b0 h0 e he).2.1⟩
  · intro b lvl now hb
    simp [TinyButton.tick, hb, TinyButton._newState]

/-- Witness of C16: a bounce, a click and a long press with timestamps out of order. -/
theorem C16_default_unreachable_witness :
    (freshButton.run [(true, 0), (false, 5), (true, 7), (false, 30), (false, 50), (true, 60),
      (true, 1000), (false, 3), (true, 4), (false, 2000), (false, 2020)]).1._state ≠ UNKNOWN ∧
    (freshButton.run [(true, 0), (false, 5), (true, 7), (false, 30), (false, 50), (true, 60),
      (true, 1000), (false, 3), (true, 4), (false, 2000), (false, 2020)]).1._lastState
        ≠ UNKNOWN :=
  ⟨(C16_default_unreachable freshButton [(true, 0), (false, 5), (true, 7), (false, 30),
      (false, 50), (true, 60), (true, 1000), (false, 3), (true, 4), (false, 2000),
      (false, 2020)] rfl rfl).2.1,
   (C16_default_unreachable freshButton [(true, 0), (false, 5), (true, 7), (false, 30),
      (false, 50), (true, 60), (true, 1000), (false, 3), (true, 4), (false, 2000),
      (false, 2020)] rfl rfl).2.2.1⟩

/-- C17 (long-press calls are well bracketed). From a constructed object with the
long-press start and stop functions attached (in particular with all functions attached),
for every finite sequence of ticks with any levels and times, the list of calls is
`wellBracketed` from no open start: starts and stops alternate beginning with a start, a
stop is never called without a start since the previous stop, and every
during-long-press call lies between a start and the next stop. -/
theorem C17_long_press_bracketed (b0 : TinyButton) (ticks : List (Bool × Nat))
    (hs : b0._state = OCS_INIT) (hl : b0._lastState = OCS_INIT)
    (hstart : b0._longPressStartFunc = true) (hstop : b0._longPressStopFunc = true) :
    wellBracketed false (b0.run ticks).2 = true := by
  have h := bracket_run ticks b0 (reachInv_init b0 hs hl) hstart hstop
  have e : b0.inLongPress = false := by simp [TinyButton.inLongPress, hs]
  rw [e] at h
  exact h

/-- Witness of C17: two long presses, the first with a bounce during its release. -/
theorem C17_long_press_bracketed_witness :
    wellBracketed false (freshButton.run [(true, 0), (true, 801), (true, 900), (false, 1000),
      (true, 1005), (false, 1100), (false, 1110), (true, 2000), (true, 2801), (false, 2900),
      (false, 2910)]).2 = true ∧
    (freshButton.run [(true, 0), (true, 801), (true, 900), (false, 1000),
      (true, 1005), (false, 1100), (false, 1110), (true, 2000), (true, 2801), (false, 2900),
      (false, 2910)]).2
      = [Callback.longPressStart, Callback.duringLongPress, Callback.longPressStop,
         Callback.longPressStart, Callback.longPressStop] :=
  ⟨C17_long_press_bracketed freshButton [(true, 0), (true, 801), (true, 900), (false, 1000),
      (true, 1005), (false, 1100), (false, 1110), (true, 2000), (true, 2801), (false, 2900),
      (false, 2910)] rfl rfl rfl rfl, by decide⟩

/-- C18 (rollback targets are determined by the state). In every object reached from a
constructed one by any tick sequence: `OCS_UP` has `_lastState = OCS_DOWN`, `OCS_PRESSEND`
has `_lastState = OCS_PRESS`, and `OCS_DOWN` has `_lastState` among `OCS_INIT`, `OCS_COUNT`,
`OCS_UP`. Hence a bounce (an early tick at the opposite level) in `OCS_UP` returns to
`OCS_DOWN`, one in `OCS_PRESSEND` returns to `OCS_PRESS`, and one in `OCS_DOWN` enters
neither `OCS_PRESS` nor `OCS_PRESSEND`. -/
theorem C18_rollback_targets (b0 : TinyButton) (ticks : List (Bool × Nat)) (now : Nat)
    (hs : b0._state = OCS_INIT) (hl : b0._lastState = OCS_INIT) :
    ((b0.run ticks).1._state = OCS_UP → (b0.run ticks).1._lastState = OCS_DOWN) ∧
    ((b0.run ticks).1._state = OCS_PRESSEND → (b0.run ticks).1._lastState = OCS_PRESS) ∧
    ((b0.run ticks).1._state = OCS_DOWN →
      (b0.run ticks).1._lastState = OCS_INIT ∨ (b0.run ticks).1._lastState = OCS_COUNT ∨
      (b0.run ticks).1._lastState = OCS_UP) ∧
    ((b0.run ticks).1._state = OCS_UP → (b0.run ticks).1.waitTime now < DEBOUNCEMS →
      ((b0.run ticks).1.tick true now).1._state = OCS_DOWN) ∧
    ((b0.run ticks).1._state = OCS_PRESSEND → (b0.run ticks).1.waitTime now < DEBOUNCEMS →
      ((b0.run ticks).1.tick true now).1._state = OCS_PRESS) ∧
    ((b0.run ticks).1._state = OCS_DOWN → (b0.run ticks).1.waitTime now < DEBOUNCEMS →
      ((b0.run ticks).1.tick false now).1._state ≠ OCS_PRESS ∧
      ((b0.run ticks).1.tick false now).1._state ≠ OCS_PRESSEND) := by
  obtain ⟨-, -, h3, h4, h5⟩ := reachInv_run ticks b0 (reachInv_init b0 hs hl)
  generalize (b0.run ticks).1 = b at h3 h4 h5
  refine ⟨h3, h4, h5, ?_, ?_, ?_⟩
  · intro hu hw
    simp [TinyButton.tick, hu, hw, TinyButton._newState, h3 hu]
  · intro hp hw
    simp [TinyButton.tick, hp, hw, TinyButton._newState, h4 hp]
  · intro hd hw
    rw [tick_down_bounce b now hd hw]
    rcases h5 hd with e | e | e <;> simp [TinyButton._newState, e]

/-- Witness of C18: a bounce during the release of a long press returns to `OCS_PRESS`. -/
theorem C18_rollback_targets_witness :
    (freshButton.run [(true, 0), (true, 801), (false, 1000)]).1._lastState = OCS_PRESS ∧
    ((freshButton.run [(true, 0), (true, 801), (false, 1000)]).1.tick true 1005).1._state
      = OCS_PRESS :=
  ⟨(C18_rollback_targets freshButton [(true, 0), (true, 801), (false, 1000)] 1005 rfl
      rfl).2.1 (by decide),
   (C18_rollback_targets freshButton [(true, 0), (true, 801), (false, 1000)] 1005 rfl
      rfl).2.2.2.2.1 (by decide) (by decide)⟩

/-- C19 (no unattached callback is called). For every object, whatever slots are attached,
every level and time: each slot the tick calls is attached; in particular the multi-click
slot, called without a test of its own, is reached only when it is attached. -/
theorem C19_only_attached (b : TinyButton) (lvl : Bool) (now : Nat) :
    ∀ e ∈ (b.tick lvl now).2, b.slotAttached e = true := by
  obtain ⟨n, c, m, ls, lst, d, st, l, t⟩ := b
  cases st <;> cases lvl <;>
    simp only [TinyButton.tick, TinyButton._newState] <;>
    (try split_ifs) <;> simp_all [TinyButton.slotAttached]

/-- Witness of C19: the second click of an episode calls the multi-click slot, which is
attached. -/
theorem C19_only_attached_witness :
    (TinyButton.mk 1 false true false false false OCS_UP OCS_DOWN 500).slotAttached
      Callback.multiClick = true :=
  C19_only_attached (TinyButton.mk 1 false true false false false OCS_UP OCS_DOWN 500)
    false 510 Callback.multiClick (by decide)

/-- C20 (behaviour does not depend on the members without initialiser). Take an object in
`OCS_INIT`, as constructed, and a second one that differs from it only in `_nClicks` and
`_startTime`. For every tick sequence the two runs give, tick by tick, the same `_state`
and the same calls; and after any sequence that contains a pressed tick the two objects
are equal in every member. -/
theorem C20_uninitialised_fields (b : TinyButton) (n t : Nat)
    (ticks pre post : List (Bool × Nat)) (now : Nat) (hs : b._state = OCS_INIT) :
    (({ b with _nClicks := n, _startTime := t } : TinyButton).trace ticks).map
        (fun e => (e.1._state, e.2))
      = (b.trace ticks).map (fun e => (e.1._state, e.2)) ∧
    (({ b with _nClicks := n, _startTime := t } : TinyButton).run
        (pre ++ (true, now) :: post)).1
      = (b.run (pre ++ (true, now) :: post)).1 := by
  have hs2 : ({ b with _nClicks := n, _startTime := t } : TinyButton)._state = OCS_INIT := hs
  constructor
  · induction ticks with
    | nil => rfl
    | cons u rest ih =>
      obtain ⟨lvl, x⟩ := u
      cases lvl
      · rw [trace_cons, trace_cons]
        simp only [tick_init_released b x hs, tick_init_released _ x hs2, List.map_cons, ih]
      · rw [trace_cons, trace_cons]
        simp only [tick_init_pressed_eq b n t x hs]
  · induction pre with
    | nil =>
      rw [List.nil_append, run_cons, run_cons]
      simp only [tick_init_pressed_eq b n t now hs]
    | cons u rest ih =>
      obtain ⟨lvl, x⟩ := u
      cases lvl
      · rw [List.cons_append, run_cons, run_cons]
        simp only [tick_init_released b x hs, tick_init_released _ x hs2]
        exact ih
      · rw [List.cons_append, run_cons, run_cons]
        simp only [tick_init_pressed_eq b n t x hs]

/-- Witness of C20: `freshButton` against a copy holding 200 clicks and entry time
4000000000, over released ticks, a click and a long press. -/
theorem C20_uninitialised_fields_witness :
    (({ freshButton with _nClicks := 200, _startTime := 4000000000 } : TinyButton).trace
        [(false, 5), (true, 10), (false, 30), (false, 50), (false, 300), (true, 400),
          (true, 1201)]).map (fun e => (e.1._state, e.2))
      = (freshButton.trace
        [(false, 5), (true, 10), (false, 30), (false, 50), (false, 300), (true, 400),
          (true, 1201)]).map (fun e => (e.1._state, e.2)) ∧
    (({ freshButton with _nClicks := 200, _startTime := 4000000000 } : TinyButton).run
        ([(false, 5)] ++ (true, 10) :: [(false, 30), (false, 50)])).1
      = (freshButton.run ([(false, 5)] ++ (true, 10) :: [(false, 30), (false, 50)])).1 :=
  C20_uninitialised_fields freshButton 200 4000000000
    [(false, 5), (true, 10), (false, 30), (false, 50), (false, 300), (true, 400), (true, 1201)]
    [(false, 5)] [(false, 30), (false, 50)] 10 rfl
